import Mathlib

/-!
Shallow embedding of `obspy/io/nied/knet.py`, the K-NET/KiK-net ASCII reader.

Modelling conventions:

* A Python string is a `List Char`; an input text stream is the list of its
  decoded lines (the byte-level `readline`/`tell` loop of
  `_internal_read_knet_ascii` walks the stream line by line, so a list of
  lines is an exact model of the traversal).
* Python floats are modelled as exact rationals.  Every float produced by the
  reader comes from `float(...)` on a decimal token or from the calibration
  formula `0.01 * num / denom`; the embedding parses the finite decimal
  fragment of Python float syntax (optional sign, digits, optional fraction,
  optional exponent) into a `Rat`.  Digit-group underscores and inf/nan
  spellings are not modelled; no input exercising the claims uses them.
* `UTCDateTime` values are POSIX seconds (`Int`), obtained from the
  proleptic-Gregorian civil-day formula; `UTCDateTime.strptime` with format
  `%Y/%m/%d %H:%M:%S` is modelled by `strptimeYmdHms` (four year digits, one
  or two digits for the other fields, full-string match, calendar
  validation).
* Exceptions are the error side of `Except PyErr`.  The `KNETException`
  raised by `_prep_hdr_line` carries the expected label and the offending
  line (as its formatted message does) and becomes `headerMismatch`; the
  final line-count check becomes `headerCountMismatch`; the station-length
  check becomes `stationTooLong`.  `ValueError` raised by `float`, `int`,
  `strptime` or tuple unpacking is `valueError`; `IndexError` from list
  indexing is `indexError`; `ZeroDivisionError` from the calibration
  division is `zeroDivision`.
* Rational arithmetic inside the embedding is performed by `ratMul`/`ratDiv`,
  which build the result directly with `mkRat`; the theorems `ratMul_eq` and
  `ratDiv_eq` below prove them equal to the field operations of `Rat`.
-/

/-- ASCII whitespace recognised by Python `str.split()` / `str.strip()`. -/
def isWsC (c : Char) : Bool :=
  c = ' ' ∨ c = '\t' ∨ c = '\n' ∨ c = '\r' ∨ c = '\x0b' ∨ c = '\x0c'

/-- Decimal digit test, the character class `[0-9]` of the `re` patterns. -/
def isDigitC (c : Char) : Bool := '0' ≤ c ∧ c ≤ '9'

/-- Numeric value of one digit character. -/
def digitVal (c : Char) : Nat := c.toNat - 48

/-- Numeric value of a digit run. -/
def natOfDigits (ds : List Char) : Nat :=
  ds.foldl (fun a c => 10 * a + digitVal c) 0

/-- Python `s.strip()` (ASCII whitespace fragment). -/
def pyStrip (s : List Char) : List Char :=
  ((s.dropWhile isWsC).reverse.dropWhile isWsC).reverse

def splitWsAux : List Char → List Char → List (List Char)
  | [], acc => if acc.isEmpty then [] else [acc.reverse]
  | c :: cs, acc =>
    if isWsC c then
      if acc.isEmpty then splitWsAux cs [] else acc.reverse :: splitWsAux cs []
    else splitWsAux cs (c :: acc)

/-- Python `s.split()` with no separator: split on whitespace runs,
empty fields discarded. -/
def splitWs (s : List Char) : List (List Char) := splitWsAux s []

def pySplitOnAux (sep : Char) : List Char → List Char → List (List Char)
  | [], acc => [acc.reverse]
  | c :: cs, acc =>
    if c = sep then acc.reverse :: pySplitOnAux sep cs []
    else pySplitOnAux sep cs (c :: acc)

/-- Python `s.split(sep)` with an explicit one-character separator:
splits at every occurrence, empty fields kept. -/
def pySplitOn (sep : Char) (s : List Char) : List (List Char) :=
  pySplitOnAux sep s []

/-- The Python exceptions the reader can raise, with the payload its
messages carry. -/
inductive PyErr where
  | headerMismatch (expected actual : List Char)
  | headerCountMismatch (expected actual : Nat)
  | stationTooLong
  | valueError
  | indexError
  | zeroDivision
deriving DecidableEq

deriving instance DecidableEq for Except

/-- Python list subscription `l[i]`: `IndexError` when out of range. -/
def pyGet {α : Type} (l : List α) (i : Nat) : Except PyErr α :=
  match l[i]? with
  | some x => .ok x
  | none => .error .indexError

/-- Python tuple unpacking `a, b = l`: `ValueError` unless exactly two
elements. -/
def unpack2 {α : Type} (l : List α) : Except PyErr (α × α) :=
  match l with
  | [a, b] => .ok (a, b)
  | _ => .error .valueError

/-- Product of two rationals, built directly with `mkRat`
(`ratMul_eq` below identifies it with `*`). -/
def ratMul (a b : Rat) : Rat := mkRat (a.num * b.num) (a.den * b.den)

/-- Quotient of two rationals, built directly with `mkRat`
(`ratDiv_eq` below identifies it with `/`). -/
def ratDiv (a b : Rat) : Rat :=
  mkRat (if 0 ≤ b.num then a.num * b.den else -(a.num * b.den))
    (a.den * b.num.natAbs)

/-- Optional sign at the head of a numeric literal. -/
def parseSign : List Char → Int × List Char
  | '+' :: r => (1, r)
  | '-' :: r => (-1, r)
  | r => (1, r)

/-- Exact value of a decimal literal: sign, mantissa digits, number of
fraction digits, exponent sign and exponent digits. -/
def decValue (sg : Int) (digits fracLen : Nat) (esg : Int) (edigits : Nat) :
    Rat :=
  if 0 ≤ esg then mkRat (sg * digits * 10 ^ edigits) (10 ^ fracLen)
  else mkRat (sg * digits) (10 ^ (fracLen + edigits))

/-- Python `float(s)` on the finite decimal fragment: optional surrounding
whitespace, optional sign, digits with optional fraction and optional
exponent; `none` models `ValueError`. -/
def parseFloat? (s : List Char) : Option Rat :=
  let t := pyStrip s
  let (sg, t1) := parseSign t
  let ip := t1.takeWhile isDigitC
  let t2 := t1.dropWhile isDigitC
  let (hasFrac, fp, t3) :=
    match t2 with
    | '.' :: r => (true, r.takeWhile isDigitC, r.dropWhile isDigitC)
    | _ => (false, ([] : List Char), t2)
  if ip.isEmpty && (!hasFrac || fp.isEmpty) then none
  else
    match t3 with
    | [] => some (decValue sg (natOfDigits (ip ++ fp)) fp.length 1 0)
    | e :: r =>
      if e = 'e' ∨ e = 'E' then
        let (esg, r1) := parseSign r
        let ed := r1.takeWhile isDigitC
        let r2 := r1.dropWhile isDigitC
        if ed.isEmpty || !r2.isEmpty then none
        else some (decValue sg (natOfDigits (ip ++ fp)) fp.length esg
          (natOfDigits ed))
      else none

/-- Python `float(s)` as an `Except` computation. -/
def pyFloat (s : List Char) : Except PyErr Rat :=
  match parseFloat? s with
  | some q => .ok q
  | none => .error .valueError

/-- The comprehension `[float(p) for p in parts]`: left to right, first failure aborts. -/
def pyFloats : List (List Char) → Except PyErr (List Rat)
  | [] => .ok []
  | t :: ts => do
    let v ← pyFloat t
    let vs ← pyFloats ts
    pure (v :: vs)

/-- Days from 1970-01-01 of a civil date (proleptic Gregorian calendar,
valid for year ≥ 1). -/
def daysFromCivil (y m d : Nat) : Int :=
  let y2 := if m ≤ 2 then y - 1 else y
  let era := y2 / 400
  let yoe := y2 % 400
  let mp := (m + 9) % 12
  let doy := (153 * mp + 2) / 5 + d - 1
  let doe := yoe * 365 + yoe / 4 - yoe / 100 + doy
  (era * 146097 + doe : Nat) - 719468

/-- POSIX seconds of a civil date-time. -/
def civilToSecs (y mo d h mi s : Nat) : Int :=
  daysFromCivil y mo d * 86400 + (h * 3600 + mi * 60 + s : Nat)

def isLeap (y : Nat) : Bool := y % 4 = 0 ∧ (y % 100 ≠ 0 ∨ y % 400 = 0)

def daysInMonth (y m : Nat) : Nat :=
  if m = 2 then (if isLeap y then 29 else 28)
  else if m = 4 ∨ m = 6 ∨ m = 9 ∨ m = 11 then 30
  else 31

/-- Greedy `\d{1,2}` of `strptime`. -/
def parse2 : List Char → Option (Nat × List Char)
  | c1 :: rest =>
    if isDigitC c1 then
      match rest with
      | c2 :: rest2 =>
        if isDigitC c2 then some (digitVal c1 * 10 + digitVal c2, rest2)
        else some (digitVal c1, rest)
      | [] => some (digitVal c1, [])
    else none
  | [] => none

/-- Exactly four digits, the `strptime` pattern for `%Y`. -/
def parse4 : List Char → Option (Nat × List Char)
  | c1 :: c2 :: c3 :: c4 :: rest =>
    if isDigitC c1 && isDigitC c2 && isDigitC c3 && isDigitC c4 then
      some (((digitVal c1 * 10 + digitVal c2) * 10 + digitVal c3) * 10 +
        digitVal c4, rest)
    else none
  | _ => none

/-- One literal character of the `strptime` format. -/
def litC (ch : Char) : List Char → Option (List Char)
  | c :: rest => if c = ch then some rest else none
  | [] => none

/-- Python `datetime.strptime(s, "%Y/%m/%d %H:%M:%S")` as POSIX seconds: the whole
string must match, and the fields must form a valid calendar date-time. -/
def strptimeYmdHms (cs : List Char) : Option Int := do
  let (y, r1) ← parse4 cs
  let r2 ← litC '/' r1
  let (mo, r3) ← parse2 r2
  let r4 ← litC '/' r3
  let (d, r5) ← parse2 r4
  let r6 ← litC ' ' r5
  let (hh, r7) ← parse2 r6
  let r8 ← litC ':' r7
  let (mi, r9) ← parse2 r8
  let r10 ← litC ':' r9
  let (s, r11) ← parse2 r10
  if r11.isEmpty ∧ 1 ≤ y ∧ 1 ≤ mo ∧ mo ≤ 12 ∧ 1 ≤ d ∧ d ≤ daysInMonth y mo ∧
      hh ≤ 23 ∧ mi ≤ 59 ∧ s ≤ 59 then
    some (civilToSecs y mo d hh mi s)
  else none

/-- Model of `UTCDateTime.strptime` raising `ValueError` on mismatch. -/
def pyStrptime (cs : List Char) : Except PyErr Int :=
  match strptimeYmdHms cs with
  | some v => .ok v
  | none => .error .valueError

/-- Model of `_prep_hdr_line`: check that the line starts with the expected label and
split it on whitespace. -/
def prep_hdr_line (name line : List Char) :
    Except PyErr (List (List Char)) :=
  if name.isPrefixOf line then .ok (splitWs line)
  else .error (.headerMismatch name line)

/-- The fixed label table `hdrnames` of `_read_knet_hdr`. -/
def hdrnames : List (List Char) :=
  ["Origin Time".data, "Lat.".data, "Long.".data, "Depth. (km)".data,
   "Mag.".data, "Station Code".data, "Station Lat.".data,
   "Station Long.".data, "Station Height(m)".data, "Record Time".data,
   "Sampling Freq(Hz)".data, "Duration Time(s)".data, "Dir.".data,
   "Scale Factor".data, "Max. Acc. (gal)".data, "Last Correction".data,
   "Memo.".data]

/-- Join of `flds[2] + ' ' + flds[3]`, then `strptime`, minus the 9 h JST offset: the
derivation used for the origin time and the last-correction time. -/
def knet_time_jst (flds : List (List Char)) : Except PyErr Int := do
  let d ← pyGet flds 2
  let t ← pyGet flds 3
  let dt ← pyStrptime (d ++ ' ' :: t)
  pure (dt - 9 * 3600)

/-- The record-time derivation: `strptime` result minus the 15 s logger
delay, then minus the 9 h JST offset. -/
def knet_rectime (flds : List (List Char)) : Except PyErr Int := do
  let d ← pyGet flds 2
  let t ← pyGet flds 3
  let dt ← pyStrptime (d ++ ' ' :: t)
  pure (dt - 15 - 9 * 3600)

/-- Station-code handling of `_read_knet_hdr` (lines 144-153): optional
split of the last two characters into the location field, then the
seven-character length check. -/
def knet_station (stnm0 : List Char) (convert_stnm : Bool) :
    Except PyErr (List Char × List Char) :=
  let location : List Char := []
  let (stnm, location) :=
    if convert_stnm ∧ stnm0.length > 5 then
      (stnm0.take (stnm0.length - 2), stnm0.drop (stnm0.length - 2))
    else (stnm0, location)
  if stnm.length > 7 then .error .stationTooLong
  else .ok (stnm, location)

/-- Sampling-rate extraction: `int(re.search('[0-9]*', freqstr).group())` —
the leading digit run; `int('')` raises `ValueError`. -/
def knet_freq (freqstr : List Char) : Except PyErr Nat :=
  let m := freqstr.takeWhile isDigitC
  if m.isEmpty then .error .valueError else .ok (natOfDigits m)

/-- The `kiknetcomps` table mapping borehole direction codes 1-6. -/
def kiknetcomps (s : List Char) : Option (List Char) :=
  if s = "1".data then some "NS1".data
  else if s = "2".data then some "EW1".data
  else if s = "3".data then some "UD1".data
  else if s = "4".data then some "NS2".data
  else if s = "5".data then some "EW2".data
  else if s = "6".data then some "UD2".data
  else none

/-- Channel derivation: remove hyphens with `replace('-','')`, then remap
through `kiknetcomps` when the whitespace-stripped result is a key. -/
def knet_channel (dirtok : List Char) : List Char :=
  let channel := dirtok.filter (fun c => c ≠ '-')
  match kiknetcomps (pyStrip channel) with
  | some c => c
  | none => channel

/-- Calibration derivation: `num, denom = eqn.split('/')`,
`float` of the leading digit run of `num`, `float(denom)`, then
`0.01 * num / denom` (`ZeroDivisionError` when `denom` is zero). -/
def knet_calib (eqn : List Char) : Except PyErr Rat := do
  let nd ← unpack2 (pySplitOn '/' eqn)
  let numv ← pyFloat (nd.1.takeWhile isDigitC)
  let denomv ← pyFloat nd.2
  if denomv = 0 then .error .zeroDivision
  else pure (ratDiv (ratMul (mkRat 1 100) numv) denomv)

/-- Extractor of the float at token position `k` of a header line. -/
def exFloatAt (k : Nat) (flds : List (List Char)) : Except PyErr Rat := do
  let t ← pyGet flds k
  pyFloat t

/-- Extractor of the station step (token 2, then `knet_station`). -/
def exStation (convert_stnm : Bool) (flds : List (List Char)) :
    Except PyErr (List Char × List Char) := do
  let t ← pyGet flds 2
  knet_station t convert_stnm

/-- Extractor of the sampling-frequency step (token 2, then `knet_freq`). -/
def exFreq (flds : List (List Char)) : Except PyErr Nat := do
  let t ← pyGet flds 2
  knet_freq t

/-- Extractor of the channel step (token 1, then `knet_channel`). -/
def exChannel (flds : List (List Char)) : Except PyErr (List Char) := do
  let t ← pyGet flds 1
  pure (knet_channel t)

/-- Extractor of the calibration step (token 2, then `knet_calib`). -/
def exCalib (flds : List (List Char)) : Except PyErr Rat := do
  let t ← pyGet flds 2
  knet_calib t

/-- Extractor of the optional `Memo.` comment:
`' '.join(flds[1:])` when the line has more than one token. -/
def exMemo (flds : List (List Char)) :
    Except PyErr (Option (List Char)) :=
  .ok (if flds.length > 1 then some (List.intercalate [' '] (flds.drop 1))
    else none)

/-- One header block of `_read_knet_hdr`: look up the label
`hdrnames[i]`, run `_prep_hdr_line` on the line, extract the fields. -/
def hdrStep {α : Type} (i : Nat)
    (ex : List (List Char) → Except PyErr α) (line : List Char) :
    Except PyErr α := do
  let flds ← prep_hdr_line (hdrnames.getD i []) line
  ex flds

/-- The header dictionary built by `_read_knet_hdr` (flattened). -/
structure KnetHdr where
  evot : Int
  evla : Rat
  evlo : Rat
  evdp : Rat
  mag : Rat
  station : List Char
  location : List Char
  stla : Rat
  stlo : Rat
  stel : Rat
  starttime : Int
  sampling_rate : Nat
  duration : Rat
  channel : List Char
  calib : Rat
  accmax : Rat
  lastcorr : Int
  comment : Option (List Char)
deriving DecidableEq

/-- Model of `_read_knet_hdr`: the seventeen header blocks in source order, then the
final line-count check. -/
def read_knet_hdr (hdrlines : List (List Char)) (convert_stnm : Bool) :
    Except PyErr KnetHdr := do
  let l0 ← pyGet hdrlines 0
  let evot ← hdrStep 0 knet_time_jst l0
  let l1 ← pyGet hdrlines 1
  let evla ← hdrStep 1 (exFloatAt 1) l1
  let l2 ← pyGet hdrlines 2
  let evlo ← hdrStep 2 (exFloatAt 1) l2
  let l3 ← pyGet hdrlines 3
  let evdp ← hdrStep 3 (exFloatAt 2) l3
  let l4 ← pyGet hdrlines 4
  let mag ← hdrStep 4 (exFloatAt 1) l4
  let l5 ← pyGet hdrlines 5
  let sl ← hdrStep 5 (exStation convert_stnm) l5
  let l6 ← pyGet hdrlines 6
  let stla ← hdrStep 6 (exFloatAt 2) l6
  let l7 ← pyGet hdrlines 7
  let stlo ← hdrStep 7 (exFloatAt 2) l7
  let l8 ← pyGet hdrlines 8
  let stel ← hdrStep 8 (exFloatAt 2) l8
  let l9 ← pyGet hdrlines 9
  let starttime ← hdrStep 9 knet_rectime l9
  let l10 ← pyGet hdrlines 10
  let freq ← hdrStep 10 exFreq l10
  let l11 ← pyGet hdrlines 11
  let duration ← hdrStep 11 (exFloatAt 2) l11
  let l12 ← pyGet hdrlines 12
  let channel ← hdrStep 12 exChannel l12
  let l13 ← pyGet hdrlines 13
  let calib ← hdrStep 13 exCalib l13
  let l14 ← pyGet hdrlines 14
  let accmax ← hdrStep 14 (exFloatAt 3) l14
  let l15 ← pyGet hdrlines 15
  let lastcorr ← hdrStep 15 knet_time_jst l15
  let l16 ← pyGet hdrlines 16
  let comment ← hdrStep 16 exMemo l16
  if hdrlines.length ≠ 17 then
    .error (.headerCountMismatch 17 hdrlines.length)
  else
    .ok ⟨evot, evla, evlo, evdp, mag, sl.1, sl.2, stla, stlo, stel,
      starttime, freq, duration, channel, calib, accmax, lastcorr, comment⟩

/-- Model of `_internal_is_knet_ascii`: the argument is the decoded stream contents,
`none` when decoding the first eleven characters raises a Unicode error
(the `try`/`except UnicodeError` of the source). -/
def internal_is_knet_ascii (decoded : Option (List Char)) : Bool :=
  match decoded with
  | none => false
  | some stream =>
    let first_string := stream.take 11
    if first_string.length ≠ 11 then false
    else if first_string = "Origin Time".data then true
    else false

/-- The header-collection loop of `_internal_read_knet_ascii`: accumulate
lines up to and including the first line starting with `"Memo"`; returns
the accumulated lines, whether such a line was found, and the remaining
lines. -/
def splitAtMemo : List (List Char) →
    List (List Char) × Bool × List (List Char)
  | [] => ([], false, [])
  | l :: ls =>
    if "Memo".data.isPrefixOf l then ([l], true, ls)
    else
      let r := splitAtMemo ls
      (l :: r.1, r.2.1, r.2.2)

/-- The data loop of `_internal_read_knet_ascii`: for each remaining line,
`line.strip().split()` and `float` of every token, in order. -/
def parseData : List (List Char) → Except PyErr (List Rat)
  | [] => .ok []
  | l :: ls => do
    let vs ← pyFloats (splitWs (pyStrip l))
    let rest ← parseData ls
    pure (vs ++ rest)

/-- The stream object returned by `_internal_read_knet_ascii`: the header
dictionary (absent when no `"Memo"` line was found), `npts`, the constant
network code and the sample values. -/
structure KnetStream where
  hdr : Option KnetHdr
  npts : Nat
  network : List Char
  data : List Rat
deriving DecidableEq

/-- Model of `_internal_read_knet_ascii` on the list of decoded lines. -/
def internal_read_knet_ascii (lines : List (List Char))
    (convert_stnm : Bool) : Except PyErr KnetStream :=
  match splitAtMemo lines with
  | (headerlines, true, rest) => do
    let hdrdict ← read_knet_hdr headerlines convert_stnm
    let data ← parseData rest
    pure ⟨some hdrdict, data.length, "BO".data, data⟩
  | (_, false, rest) => do
    let data ← parseData rest
    pure ⟨none, data.length, "BO".data, data⟩

/-- A well-formed concrete K-NET header (17 lines). -/
def sampleLines : List (List Char) :=
  ["Origin Time       2011/03/11 14:46:00".data,
   "Lat.              38.103".data,
   "Long.             142.86".data,
   "Depth. (km)       24".data,
   "Mag.              9.0".data,
   "Station Code      MYG004".data,
   "Station Lat.      38.7292".data,
   "Station Long.     141.0217".data,
   "Station Height(m) 21".data,
   "Record Time       2011/03/11 14:46:45".data,
   "Sampling Freq(Hz) 100Hz".data,
   "Duration Time(s)  300".data,
   "Dir.              N-S".data,
   "Scale Factor      2000(gal)/8388608".data,
   "Max. Acc. (gal)   2933.078".data,
   "Last Correction   2011/03/11 14:46:45".data,
   "Memo.".data]

/-- The header record that `sampleLines` parses to. -/
def sampleHdr : KnetHdr where
  evot := civilToSecs 2011 3 11 5 46 0
  evla := mkRat 38103 1000
  evlo := mkRat 14286 100
  evdp := mkRat 24 1
  mag := mkRat 9 1
  station := "MYG004".data
  location := []
  stla := mkRat 387292 10000
  stlo := mkRat 1410217 10000
  stel := mkRat 21 1
  starttime := civilToSecs 2011 3 11 5 46 30
  sampling_rate := 100
  duration := mkRat 300 1
  channel := "NS".data
  calib := mkRat 5 2097152
  accmax := mkRat 2933078 1000
  lastcorr := civilToSecs 2011 3 11 5 46 45
  comment := none

/-! Helper lemmas used by the claim theorems below. -/

theorem ratMul_eq (a b : Rat) : ratMul a b = a * b := by
  unfold ratMul
  rw [Rat.mkRat_eq_div]
  push_cast
  rw [div_eq_iff (by positivity : ((a.den : Rat) * b.den) ≠ 0)]
  calc (a.num : Rat) * b.num
      = (a.num / a.den) * (b.num / b.den) * (a.den * b.den) := by field_simp
    _ = a * b * (a.den * b.den) := by rw [Rat.num_div_den, Rat.num_div_den]

theorem ratDiv_eq (a b : Rat) : ratDiv a b = a / b := by
  unfold ratDiv
  have hden : (a.den : Rat) ≠ 0 := by exact_mod_cast a.den_nz
  have hbden : (b.den : Rat) ≠ 0 := by exact_mod_cast b.den_nz
  rcases lt_trichotomy b.num 0 with hneg | hzero | hpos
  · have hbn : b.num ≠ 0 := by omega
    have hbr : (b.num : Rat) ≠ 0 := by exact_mod_cast hbn
    rw [if_neg (by omega), Rat.mkRat_eq_div]
    push_cast [Int.cast_natAbs]
    rw [abs_of_neg (by exact_mod_cast hneg : (b.num : Rat) < 0)]
    rw [mul_neg, div_neg, neg_div, neg_neg]
    conv_rhs => rw [← Rat.num_div_den a, ← Rat.num_div_den b]
    field_simp
  · have hb0 : b = 0 := Rat.num_eq_zero.mp hzero
    subst hb0
    simp
  · have hbn : b.num ≠ 0 := by omega
    have hbr : (b.num : Rat) ≠ 0 := by exact_mod_cast hbn
    rw [if_pos (by omega), Rat.mkRat_eq_div]
    push_cast [Int.cast_natAbs]
    rw [abs_of_pos (by exact_mod_cast hpos : (0 : Rat) < b.num)]
    conv_rhs => rw [← Rat.num_div_den a, ← Rat.num_div_den b]
    field_simp

theorem ok_bind {α β : Type} (a : α) (f : α → Except PyErr β) :
    (Except.ok a >>= f) = f a := rfl

theorem err_bind {α β : Type} (e : PyErr) (f : α → Except PyErr β) :
    ((Except.error e : Except PyErr α) >>= f) = .error e := rfl

theorem exBind_ok {α β : Type} {e : Except PyErr α}
    {f : α → Except PyErr β} {b : β} (hh : e >>= f = .ok b) :
    ∃ a, e = .ok a ∧ f a = .ok b := by
  cases e with
  | error err => simp [Bind.bind, Except.bind] at hh
  | ok a => exact ⟨a, rfl, by simpa [Bind.bind, Except.bind] using hh⟩

theorem pyGet_ok {α : Type} {l : List α} {i : Nat} {x : α} :
    pyGet l i = .ok x ↔ l[i]? = some x := by
  unfold pyGet
  cases hg : l[i]? <;> simp

theorem prep_ok {name line : List Char} {flds : List (List Char)} :
    prep_hdr_line name line = .ok flds ↔
      (name.isPrefixOf line = true ∧ flds = splitWs line) := by
  unfold prep_hdr_line
  cases hp : name.isPrefixOf line <;> simp [eq_comm]

theorem prep_fail {name line : List Char}
    (hh : name.isPrefixOf line = false) :
    prep_hdr_line name line = .error (.headerMismatch name line) := by
  unfold prep_hdr_line
  rw [hh]
  simp

theorem hdrStep_ok_elim {α : Type} {i : Nat}
    {ex : List (List Char) → Except PyErr α} {line : List Char} {v : α}
    (hh : hdrStep i ex line = .ok v) :
    (hdrnames.getD i []).isPrefixOf line = true ∧
      ex (splitWs line) = .ok v := by
  unfold hdrStep at hh
  obtain ⟨flds, hp, hex⟩ := exBind_ok hh
  obtain ⟨h1, h2⟩ := prep_ok.mp hp
  exact ⟨h1, h2 ▸ hex⟩

theorem hdrStep_fail {α : Type} (i : Nat)
    (ex : List (List Char) → Except PyErr α) {line : List Char}
    (hh : (hdrnames.getD i []).isPrefixOf line = false) :
    hdrStep i ex line =
      .error (.headerMismatch (hdrnames.getD i []) line) := by
  unfold hdrStep
  rw [prep_fail hh, err_bind]

theorem isPrefixOf_nil (l : List Char) : List.isPrefixOf [] l = true := by
  cases l <;> rfl

theorem isPrefixOf_cons {a : Char} {as l : List Char} :
    (a :: as).isPrefixOf l = true ↔
      ∃ bs, l = a :: bs ∧ as.isPrefixOf bs = true := by
  cases l with
  | nil =>
    constructor
    · intro hh
      exact Bool.noConfusion hh
    · rintro ⟨bs, hb, hp⟩
      cases hb
  | cons b bs =>
    show (a == b && as.isPrefixOf bs) = true ↔ _
    rw [Bool.and_eq_true, beq_iff_eq]
    constructor
    · rintro ⟨rfl, hp⟩
      exact ⟨bs, rfl, hp⟩
    · rintro ⟨bs2, heq, hp⟩
      injection heq with h1 h2
      subst h1
      subst h2
      exact ⟨rfl, hp⟩

theorem isPrefixOf_ex : ∀ {p l : List Char},
    p.isPrefixOf l = true → ∃ t, l = p ++ t
  | [], l, _ => ⟨l, rfl⟩
  | a :: as, l, hh => by
    obtain ⟨bs, rfl, hp⟩ := isPrefixOf_cons.mp hh
    obtain ⟨t, ht⟩ := isPrefixOf_ex hp
    exact ⟨t, by rw [ht]; rfl⟩

theorem isPrefixOf_append (p t : List Char) :
    p.isPrefixOf (p ++ t) = true := by
  induction p with
  | nil => exact isPrefixOf_nil t
  | cons a as ih => exact isPrefixOf_cons.mpr ⟨as ++ t, rfl, ih⟩

theorem isPrefixOf_of_le : ∀ {p q l : List Char},
    p.isPrefixOf l = true → q.isPrefixOf l = true →
    p.length ≤ q.length → p.isPrefixOf q = true
  | [], q, _, _, _, _ => isPrefixOf_nil q
  | a :: as, [], l, hp, hq, hlen => by simp at hlen
  | a :: as, b :: bs, l, hp, hq, hlen => by
    obtain ⟨cs, rfl, hp2⟩ := isPrefixOf_cons.mp hp
    obtain ⟨ds, heq, hq2⟩ := isPrefixOf_cons.mp hq
    injection heq with h1 h2
    subst h1
    subst h2
    exact isPrefixOf_cons.mpr
      ⟨bs, rfl, isPrefixOf_of_le hp2 hq2 (by simpa using hlen)⟩

theorem isPrefixOf_conflictF {p q l : List Char}
    (hp : p.isPrefixOf l = true) (hq : q.isPrefixOf l = true)
    (hlen : p.length ≤ q.length) (hnot : p.isPrefixOf q = false) : False := by
  rw [isPrefixOf_of_le hp hq hlen] at hnot
  exact Bool.noConfusion hnot

theorem isPrefixOf_trans {p q l : List Char}
    (h1 : p.isPrefixOf q = true) (h2 : q.isPrefixOf l = true) :
    p.isPrefixOf l = true := by
  obtain ⟨t1, rfl⟩ := isPrefixOf_ex h1
  obtain ⟨t2, rfl⟩ := isPrefixOf_ex h2
  rw [List.append_assoc]
  exact isPrefixOf_append _ _

theorem label_no_memo {i : Nat} (hi : i < 16) {l : List Char}
    (hpre : (hdrnames.getD i []).isPrefixOf l = true)
    (hmemo : "Memo".data.isPrefixOf l = true) : False := by
  interval_cases i <;>
    exact isPrefixOf_conflictF hmemo hpre (by decide) (by decide)

theorem memo_of_line16 {l : List Char}
    (hpre : (hdrnames.getD 16 []).isPrefixOf l = true) :
    "Memo".data.isPrefixOf l = true :=
  isPrefixOf_trans (by decide) hpre

theorem splitAtMemo_none {ls : List (List Char)}
    (hh : ∀ l ∈ ls, "Memo".data.isPrefixOf l = false) :
    splitAtMemo ls = (ls, false, []) := by
  induction ls with
  | nil => rfl
  | cons l ls ih =>
    have h1 := hh l (by simp)
    have h2 := ih (fun x hx => hh x (by simp [hx]))
    simp [splitAtMemo, h1, h2]

theorem splitAtMemo_found (front : List (List Char))
    (lastline : List Char) (rest : List (List Char))
    (hfront : ∀ l ∈ front, "Memo".data.isPrefixOf l = false)
    (hlast : "Memo".data.isPrefixOf lastline = true) :
    splitAtMemo (front ++ lastline :: rest) =
      (front ++ [lastline], true, rest) := by
  induction front with
  | nil => simp [splitAtMemo, hlast]
  | cons l ls ih =>
    have h1 := hfront l (by simp)
    have h2 := ih (fun x hx => hfront x (by simp [hx]))
    simp [splitAtMemo, h1, h2]

theorem pure_ok {α : Type} (a : α) : (pure a : Except PyErr α) = .ok a := rfl

theorem pyFloat_ok {t : List Char} {v : Rat} :
    pyFloat t = .ok v ↔ parseFloat? t = some v := by
  unfold pyFloat
  cases hp : parseFloat? t <;> simp

theorem pyFloats_ok : ∀ {ts : List (List Char)} {vs : List Rat},
    pyFloats ts = .ok vs →
    vs = ts.filterMap parseFloat? ∧ vs.length = ts.length
  | [], vs, hh => by
    simp only [pyFloats] at hh
    injection hh with hh
    simp [← hh]
  | t :: ts, vs, hh => by
    simp only [pyFloats] at hh
    obtain ⟨v, hv, hh2⟩ := exBind_ok hh
    obtain ⟨ws, hws, hh3⟩ := exBind_ok hh2
    obtain ⟨h1, h2⟩ := pyFloats_ok hws
    rw [pure_ok] at hh3
    injection hh3 with hh4
    subst hh4
    rw [List.filterMap_cons, pyFloat_ok.mp hv]
    subst h1
    simp [h2]

theorem parseData_ok : ∀ {ds : List (List Char)} {vs : List Rat},
    parseData ds = .ok vs →
    vs = ds.flatMap (fun l => (splitWs (pyStrip l)).filterMap parseFloat?) ∧
    vs.length = (ds.map (fun l => (splitWs (pyStrip l)).length)).sum
  | [], vs, hh => by
    simp only [parseData] at hh
    injection hh with hh
    simp [← hh]
  | d :: ds, vs, hh => by
    simp only [parseData] at hh
    obtain ⟨v, hv, hh2⟩ := exBind_ok hh
    obtain ⟨ws, hws, hh3⟩ := exBind_ok hh2
    obtain ⟨h1, h2⟩ := parseData_ok hws
    obtain ⟨h3, h4⟩ := pyFloats_ok hv
    rw [pure_ok] at hh3
    injection hh3 with hh4
    subst hh4
    subst h1
    subst h3
    simp [h2, h4]

/-- Everything a successful `read_knet_hdr` run guarantees: seventeen
lines, each present, each passing its label check, and each field of the
result produced by its step. -/
theorem read_knet_hdr_ok_elim {hdrlines : List (List Char)} {c : Bool}
    {h : KnetHdr} (hok : read_knet_hdr hdrlines c = .ok h) :
    hdrlines.length = 17 ∧
    ∃ L0 L1 L2 L3 L4 L5 L6 L7 L8 L9 L10 L11 L12 L13 L14 L15 L16,
      hdrlines[0]? = some L0 ∧ hdrStep 0 knet_time_jst L0 = .ok h.evot ∧
      hdrlines[1]? = some L1 ∧ hdrStep 1 (exFloatAt 1) L1 = .ok h.evla ∧
      hdrlines[2]? = some L2 ∧ hdrStep 2 (exFloatAt 1) L2 = .ok h.evlo ∧
      hdrlines[3]? = some L3 ∧ hdrStep 3 (exFloatAt 2) L3 = .ok h.evdp ∧
      hdrlines[4]? = some L4 ∧ hdrStep 4 (exFloatAt 1) L4 = .ok h.mag ∧
      hdrlines[5]? = some L5 ∧
        hdrStep 5 (exStation c) L5 = .ok (h.station, h.location) ∧
      hdrlines[6]? = some L6 ∧ hdrStep 6 (exFloatAt 2) L6 = .ok h.stla ∧
      hdrlines[7]? = some L7 ∧ hdrStep 7 (exFloatAt 2) L7 = .ok h.stlo ∧
      hdrlines[8]? = some L8 ∧ hdrStep 8 (exFloatAt 2) L8 = .ok h.stel ∧
      hdrlines[9]? = some L9 ∧ hdrStep 9 knet_rectime L9 = .ok h.starttime ∧
      hdrlines[10]? = some L10 ∧
        hdrStep 10 exFreq L10 = .ok h.sampling_rate ∧
      hdrlines[11]? = some L11 ∧
        hdrStep 11 (exFloatAt 2) L11 = .ok h.duration ∧
      hdrlines[12]? = some L12 ∧ hdrStep 12 exChannel L12 = .ok h.channel ∧
      hdrlines[13]? = some L13 ∧ hdrStep 13 exCalib L13 = .ok h.calib ∧
      hdrlines[14]? = some L14 ∧ hdrStep 14 (exFloatAt 3) L14 = .ok h.accmax ∧
      hdrlines[15]? = some L15 ∧
        hdrStep 15 knet_time_jst L15 = .ok h.lastcorr ∧
      hdrlines[16]? = some L16 ∧ hdrStep 16 exMemo L16 = .ok h.comment := by
  unfold read_knet_hdr at hok
  obtain ⟨L0, g0, hok⟩ := exBind_ok hok
  obtain ⟨v0, s0, hok⟩ := exBind_ok hok
  obtain ⟨L1, g1, hok⟩ := exBind_ok hok
  obtain ⟨v1, s1, hok⟩ := exBind_ok hok
  obtain ⟨L2, g2, hok⟩ := exBind_ok hok
  obtain ⟨v2, s2, hok⟩ := exBind_ok hok
  obtain ⟨L3, g3, hok⟩ := exBind_ok hok
  obtain ⟨v3, s3, hok⟩ := exBind_ok hok
  obtain ⟨L4, g4, hok⟩ := exBind_ok hok
  obtain ⟨v4, s4, hok⟩ := exBind_ok hok
  obtain ⟨L5, g5, hok⟩ := exBind_ok hok
  obtain ⟨v5, s5, hok⟩ := exBind_ok hok
  obtain ⟨L6, g6, hok⟩ := exBind_ok hok
  obtain ⟨v6, s6, hok⟩ := exBind_ok hok
  obtain ⟨L7, g7, hok⟩ := exBind_ok hok
  obtain ⟨v7, s7, hok⟩ := exBind_ok hok
  obtain ⟨L8, g8, hok⟩ := exBind_ok hok
  obtain ⟨v8, s8, hok⟩ := exBind_ok hok
  obtain ⟨L9, g9, hok⟩ := exBind_ok hok
  obtain ⟨v9, s9, hok⟩ := exBind_ok hok
  obtain ⟨L10, g10, hok⟩ := exBind_ok hok
  obtain ⟨v10, s10, hok⟩ := exBind_ok hok
  obtain ⟨L11, g11, hok⟩ := exBind_ok hok
  obtain ⟨v11, s11, hok⟩ := exBind_ok hok
  obtain ⟨L12, g12, hok⟩ := exBind_ok hok
  obtain ⟨v12, s12, hok⟩ := exBind_ok hok
  obtain ⟨L13, g13, hok⟩ := exBind_ok hok
  obtain ⟨v13, s13, hok⟩ := exBind_ok hok
  obtain ⟨L14, g14, hok⟩ := exBind_ok hok
  obtain ⟨v14, s14, hok⟩ := exBind_ok hok
  obtain ⟨L15, g15, hok⟩ := exBind_ok hok
  obtain ⟨v15, s15, hok⟩ := exBind_ok hok
  obtain ⟨L16, g16, hok⟩ := exBind_ok hok
  obtain ⟨v16, s16, hok⟩ := exBind_ok hok
  split at hok
  · exact absurd hok (by simp)
  · rename_i hlen
    injection hok with hok
    subst hok
    refine ⟨by omega, L0, L1, L2, L3, L4, L5, L6, L7, L8, L9, L10, L11, L12,
      L13, L14, L15, L16, pyGet_ok.mp g0, s0, pyGet_ok.mp g1, s1,
      pyGet_ok.mp g2, s2, pyGet_ok.mp g3, s3, pyGet_ok.mp g4, s4,
      pyGet_ok.mp g5, ?_, pyGet_ok.mp g6, s6, pyGet_ok.mp g7, s7,
      pyGet_ok.mp g8, s8, pyGet_ok.mp g9, s9, pyGet_ok.mp g10, s10,
      pyGet_ok.mp g11, s11, pyGet_ok.mp g12, s12, pyGet_ok.mp g13, s13,
      pyGet_ok.mp g14, s14, pyGet_ok.mp g15, s15, pyGet_ok.mp g16, s16⟩
    rw [s5]

theorem bool_ne_true_of_false {b : Bool} (hh : b = false) : b ≠ true := by
  intro ht
  rw [hh] at ht
  exact Bool.noConfusion ht

theorem bool_false_of_not {b : Bool} (hh : b = true → False) : b = false := by
  cases b
  · rfl
  · exact absurd rfl hh

theorem unpack2_fail {α : Type} {l : List α} (hh : l.length ≠ 2) :
    unpack2 l = .error .valueError := by
  match l with
  | [] => rfl
  | [a] => rfl
  | [a, b] => exact absurd rfl hh
  | a :: b :: x :: rest => rfl

theorem exStation_ok_elim {c : Bool} {flds : List (List Char)}
    {v : List Char × List Char} (hh : exStation c flds = .ok v) :
    ∃ t, flds[2]? = some t ∧ knet_station t c = .ok v := by
  unfold exStation at hh
  obtain ⟨t, ht, hk⟩ := exBind_ok hh
  exact ⟨t, pyGet_ok.mp ht, hk⟩

theorem exFreq_ok_elim {flds : List (List Char)} {v : Nat}
    (hh : exFreq flds = .ok v) :
    ∃ t, flds[2]? = some t ∧ knet_freq t = .ok v := by
  unfold exFreq at hh
  obtain ⟨t, ht, hk⟩ := exBind_ok hh
  exact ⟨t, pyGet_ok.mp ht, hk⟩

theorem exCalib_ok_elim {flds : List (List Char)} {v : Rat}
    (hh : exCalib flds = .ok v) :
    ∃ t, flds[2]? = some t ∧ knet_calib t = .ok v := by
  unfold exCalib at hh
  obtain ⟨t, ht, hk⟩ := exBind_ok hh
  exact ⟨t, pyGet_ok.mp ht, hk⟩

theorem exChannel_ok_elim {flds : List (List Char)} {v : List Char}
    (hh : exChannel flds = .ok v) :
    ∃ t, flds[1]? = some t ∧ knet_channel t = v := by
  unfold exChannel at hh
  obtain ⟨t, ht, hk⟩ := exBind_ok hh
  rw [pure_ok] at hk
  injection hk with hk2
  exact ⟨t, pyGet_ok.mp ht, hk2⟩

theorem getElem?_take_some {α : Type} {l : List α} {n i : Nat} {x : α}
    (hh : (l.take n)[i]? = some x) : l[i]? = some x := by
  induction l generalizing n i with
  | nil => simp at hh
  | cons a as ih =>
    cases n with
    | zero => simp at hh
    | succ n =>
      cases i with
      | zero => simpa using hh
      | succ i =>
        rw [List.take_succ_cons, List.getElem?_cons_succ] at hh
        rw [List.getElem?_cons_succ]
        exact ih hh

theorem isPrefixOf_iff_take : ∀ {p s : List Char},
    p.isPrefixOf s = true ↔ (p.length ≤ s.length ∧ s.take p.length = p)
  | [], s => by simp [isPrefixOf_nil]
  | a :: as, [] => by
    constructor
    · intro hh
      exact Bool.noConfusion hh
    · rintro ⟨hlen, _⟩
      simp at hlen
  | a :: as, b :: bs => by
    rw [isPrefixOf_cons]
    constructor
    · rintro ⟨bs2, heq, hp⟩
      injection heq with h1 h2
      subst h1
      subst h2
      obtain ⟨hl, ht⟩ := isPrefixOf_iff_take.mp hp
      refine ⟨by simpa using hl, ?_⟩
      rw [List.length_cons, List.take_succ_cons, ht]
    · rintro ⟨hlen, ht⟩
      rw [List.length_cons, List.take_succ_cons] at ht
      injection ht with h1 h2
      subst h1
      exact ⟨bs, rfl, (isPrefixOf_iff_take (p := as) (s := bs)).mpr
        ⟨by simpa using hlen, h2⟩⟩

/-- C3: the format sniffer accepts exactly the decodable streams whose
first eleven characters are `"Origin Time"`: it returns true iff the
decoded stream has `"Origin Time"` as a prefix, and it returns false on
decode failure (no exception escapes: the operation is total and
Boolean-valued). -/
theorem C3_sniffer_iff :
    (∀ decoded : Option (List Char),
      internal_is_knet_ascii decoded = true ↔
        ∃ s, decoded = some s ∧ "Origin Time".data.isPrefixOf s = true) ∧
    internal_is_knet_ascii none = false := by
  refine ⟨fun decoded => ?_, rfl⟩
  cases decoded with
  | none => simp [internal_is_knet_ascii]
  | some s =>
    simp only [internal_is_knet_ascii, Option.some.injEq]
    constructor
    · intro hh
      refine ⟨s, rfl, ?_⟩
      by_cases h11 : (s.take 11).length ≠ 11
      · rw [if_pos h11] at hh
        exact Bool.noConfusion hh
      · rw [if_neg h11] at hh
        by_cases heq : s.take 11 = "Origin Time".data
        · apply isPrefixOf_iff_take.mpr
          rw [List.length_take] at h11
          have hl : ("Origin Time".data).length = 11 := by decide
          refine ⟨?_, by rw [hl]; exact heq⟩
          rw [hl]
          omega
        · rw [if_neg heq] at hh
          exact Bool.noConfusion hh
    · rintro ⟨s2, heq2, hpre⟩
      subst heq2
      obtain ⟨hlen, htake⟩ := isPrefixOf_iff_take.mp hpre
      have hl : ("Origin Time".data).length = 11 := by decide
      rw [hl] at hlen htake
      have h1 : (s.take 11).length = 11 := by
        rw [List.length_take]
        omega
      rw [if_neg (by omega), if_pos htake]

theorem pyFloat_none {t : List Char} (hh : parseFloat? t = none) :
    pyFloat t = .error .valueError := by
  unfold pyFloat
  rw [hh]

theorem knet_freq_ok_elim {t : List Char} {v : Nat}
    (hh : knet_freq t = .ok v) :
    t.takeWhile isDigitC ≠ [] ∧ v = natOfDigits (t.takeWhile isDigitC) := by
  unfold knet_freq at hh
  by_cases hm : (t.takeWhile isDigitC).isEmpty = true
  · rw [if_pos hm] at hh
    exact absurd hh (by simp)
  · rw [if_neg hm] at hh
    injection hh with hh2
    exact ⟨by simpa [List.isEmpty_iff] using hm, hh2.symm⟩

/-- C6: the three timestamp fields join tokens 2 and 3 of the split line
with one space, parse `YYYY/MM/DD HH:MM:SS` and subtract nine hours;
the record start time additionally subtracts fifteen seconds, so
`"2011/03/11 14:46:45"` gives `2011/03/11 05:46:30` UTC while the origin
and last-correction derivations subtract only the nine hours. -/
theorem C6_timestamps :
    (∀ (flds : List (List Char)) (d t : List Char) (v : Int),
      flds[2]? = some d → flds[3]? = some t →
      pyStrptime (d ++ ' ' :: t) = .ok v →
      knet_time_jst flds = .ok (v - 9 * 3600) ∧
      knet_rectime flds = .ok (v - 15 - 9 * 3600)) ∧
    (∀ (hls : List (List Char)) (c : Bool) (h : KnetHdr),
      read_knet_hdr hls c = .ok h →
      (∃ l, hls[0]? = some l ∧ knet_time_jst (splitWs l) = .ok h.evot) ∧
      (∃ l, hls[9]? = some l ∧ knet_rectime (splitWs l) = .ok h.starttime) ∧
      (∃ l, hls[15]? = some l ∧ knet_time_jst (splitWs l) = .ok h.lastcorr)) ∧
    knet_rectime [[], [], "2011/03/11".data, "14:46:45".data] =
      .ok (civilToSecs 2011 3 11 5 46 30) ∧
    knet_time_jst [[], [], "2011/03/11".data, "14:46:45".data] =
      .ok (civilToSecs 2011 3 11 5 46 45) := by
  refine ⟨fun flds d t v hd ht hs => ⟨?_, ?_⟩, fun hls c h hok => ?_,
    by decide, by decide⟩
  · unfold knet_time_jst
    rw [show pyGet flds 2 = .ok d from pyGet_ok.mpr hd, ok_bind,
      show pyGet flds 3 = .ok t from pyGet_ok.mpr ht, ok_bind, hs, ok_bind,
      pure_ok]
  · unfold knet_rectime
    rw [show pyGet flds 2 = .ok d from pyGet_ok.mpr hd, ok_bind,
      show pyGet flds 3 = .ok t from pyGet_ok.mpr ht, ok_bind, hs, ok_bind,
      pure_ok]
  · obtain ⟨hlen, L0, L1, L2, L3, L4, L5, L6, L7, L8, L9, L10, L11, L12,
      L13, L14, L15, L16, g0, s0, g1, s1, g2, s2, g3, s3, g4, s4, g5, s5,
      g6, s6, g7, s7, g8, s8, g9, s9, g10, s10, g11, s11, g12, s12, g13,
      s13, g14, s14, g15, s15, g16, s16⟩ := read_knet_hdr_ok_elim hok
    exact ⟨⟨L0, g0, (hdrStep_ok_elim s0).2⟩, ⟨L9, g9, (hdrStep_ok_elim s9).2⟩,
      ⟨L15, g15, (hdrStep_ok_elim s15).2⟩⟩

/-- C7: with `convert_station_name` enabled and a token longer than five
characters, the last two characters become the location and the rest the
station; otherwise the whole token is the station and the location is
empty; the result is `stationTooLong` exactly when the resulting station
identifier exceeds seven characters. -/
theorem C7_station_split :
    (∀ (tok : List Char) (c : Bool),
      (c = true ∧ tok.length > 5 →
        knet_station tok c =
          if tok.length - 2 > 7 then .error .stationTooLong
          else .ok (tok.take (tok.length - 2), tok.drop (tok.length - 2))) ∧
      (¬(c = true ∧ tok.length > 5) →
        knet_station tok c =
          if tok.length > 7 then .error .stationTooLong
          else .ok (tok, []))) ∧
    (∀ (hls : List (List Char)) (c : Bool) (h : KnetHdr),
      read_knet_hdr hls c = .ok h →
      ∃ l t, hls[5]? = some l ∧ (splitWs l)[2]? = some t ∧
        knet_station t c = .ok (h.station, h.location)) := by
  constructor
  · intro tok c
    constructor
    · intro hcross
      simp only [knet_station]
      rw [if_pos hcross]
      have hlen : (tok.take (tok.length - 2)).length = tok.length - 2 := by
        rw [List.length_take]
        omega
      dsimp only
      simp only [hlen]
    · intro hncross
      simp only [knet_station]
      rw [if_neg hncross]
  · intro hls c h hok
    obtain ⟨hlen, L0, L1, L2, L3, L4, L5, L6, L7, L8, L9, L10, L11, L12,
      L13, L14, L15, L16, g0, s0, g1, s1, g2, s2, g3, s3, g4, s4, g5, s5,
      g6, s6, g7, s7, g8, s8, g9, s9, g10, s10, g11, s11, g12, s12, g13,
      s13, g14, s14, g15, s15, g16, s16⟩ := read_knet_hdr_ok_elim hok
    obtain ⟨t, ht, hk⟩ := exStation_ok_elim (hdrStep_ok_elim s5).2
    exact ⟨L5, t, g5, ht, hk⟩

/-- C8: the channel code is the direction token with all hyphens removed,
remapped through the fixed table when the stripped result is one of
`"1"`-`"6"` (`"3"` gives `"UD1"`), and kept verbatim otherwise
(`"N-S"` gives `"NS"`). -/
theorem C8_channel_remap :
    (∀ tok : List Char,
      (pyStrip (tok.filter (fun c => c ≠ '-')) = "1".data →
        knet_channel tok = "NS1".data) ∧
      (pyStrip (tok.filter (fun c => c ≠ '-')) = "2".data →
        knet_channel tok = "EW1".data) ∧
      (pyStrip (tok.filter (fun c => c ≠ '-')) = "3".data →
        knet_channel tok = "UD1".data) ∧
      (pyStrip (tok.filter (fun c => c ≠ '-')) = "4".data →
        knet_channel tok = "NS2".data) ∧
      (pyStrip (tok.filter (fun c => c ≠ '-')) = "5".data →
        knet_channel tok = "EW2".data) ∧
      (pyStrip (tok.filter (fun c => c ≠ '-')) = "6".data →
        knet_channel tok = "UD2".data) ∧
      (kiknetcomps (pyStrip (tok.filter (fun c => c ≠ '-'))) = none →
        knet_channel tok = tok.filter (fun c => c ≠ '-'))) ∧
    (∀ (hls : List (List Char)) (c : Bool) (h : KnetHdr),
      read_knet_hdr hls c = .ok h →
      ∃ l t, hls[12]? = some l ∧ (splitWs l)[1]? = some t ∧
        knet_channel t = h.channel) ∧
    knet_channel "3".data = "UD1".data ∧
    knet_channel "N-S".data = "NS".data := by
  refine ⟨fun tok => ?_, fun hls c h hok => ?_, by decide, by decide⟩
  · refine ⟨fun h1 => ?_, fun h1 => ?_, fun h1 => ?_, fun h1 => ?_,
      fun h1 => ?_, fun h1 => ?_, fun h1 => ?_⟩ <;>
      · simp only [knet_channel]
        rw [h1]
        try rfl
  · obtain ⟨hlen, L0, L1, L2, L3, L4, L5, L6, L7, L8, L9, L10, L11, L12,
      L13, L14, L15, L16, g0, s0, g1, s1, g2, s2, g3, s3, g4, s4, g5, s5,
      g6, s6, g7, s7, g8, s8, g9, s9, g10, s10, g11, s11, g12, s12, g13,
      s13, g14, s14, g15, s15, g16, s16⟩ := read_knet_hdr_ok_elim hok
    obtain ⟨t, ht, hk⟩ := exChannel_ok_elim (hdrStep_ok_elim s12).2
    exact ⟨L12, t, g12, ht, hk⟩

/-- C10: an empty leading digit run of the sampling-frequency token makes
the integer conversion fail (never a recorded rate of zero), and a
nonempty run gives the integer value of that run with the unit suffix
discarded; a successful header parse always got its sampling rate from a
nonempty digit run. -/
theorem C10_sampling_rate :
    (∀ tok : List Char,
      (∀ (ch : Char) (rest : List Char), tok = ch :: rest →
        isDigitC ch = false) →
      knet_freq tok = .error .valueError) ∧
    (∀ tok : List Char, tok.takeWhile isDigitC ≠ [] →
      knet_freq tok = .ok (natOfDigits (tok.takeWhile isDigitC))) ∧
    (∀ (hls : List (List Char)) (c : Bool) (h : KnetHdr),
      read_knet_hdr hls c = .ok h →
      ∃ l t, hls[10]? = some l ∧ (splitWs l)[2]? = some t ∧
        t.takeWhile isDigitC ≠ [] ∧
        h.sampling_rate = natOfDigits (t.takeWhile isDigitC)) := by
  refine ⟨fun tok hnd => ?_, fun tok hne => ?_, fun hls c h hok => ?_⟩
  · have hempty : tok.takeWhile isDigitC = [] := by
      cases tok with
      | nil => rfl
      | cons ch rest =>
        rw [List.takeWhile_cons, hnd ch rest rfl]
        simp
    unfold knet_freq
    rw [hempty]
    rfl
  · unfold knet_freq
    rw [if_neg (by simpa [List.isEmpty_iff] using hne)]
  · obtain ⟨hlen, L0, L1, L2, L3, L4, L5, L6, L7, L8, L9, L10, L11, L12,
      L13, L14, L15, L16, g0, s0, g1, s1, g2, s2, g3, s3, g4, s4, g5, s5,
      g6, s6, g7, s7, g8, s8, g9, s9, g10, s10, g11, s11, g12, s12, g13,
      s13, g14, s14, g15, s15, g16, s16⟩ := read_knet_hdr_ok_elim hok
    obtain ⟨t, ht, hk⟩ := exFreq_ok_elim (hdrStep_ok_elim s10).2
    obtain ⟨hne, hv⟩ := knet_freq_ok_elim hk
    exact ⟨L10, t, g10, ht, hne, hv⟩

/-- C9: the calibration splits the scale-factor token on `/`, parses the
leading digit run of the numerator and the full denominator as floats and
returns `0.01 * num / denom` (`"2000/8388608"` gives
`0.01 * 2000 / 8388608`); a split with other than two parts or a failing
numeric parse aborts the decode with an error. -/
theorem C9_calibration :
    (∀ (eqn n d : List Char) (v1 v2 : Rat),
      pySplitOn '/' eqn = [n, d] →
      parseFloat? (n.takeWhile isDigitC) = some v1 →
      parseFloat? d = some v2 → v2 ≠ 0 →
      knet_calib eqn = .ok (1/100 * v1 / v2)) ∧
    (∀ eqn : List Char, (pySplitOn '/' eqn).length ≠ 2 →
      knet_calib eqn = .error .valueError) ∧
    (∀ eqn n d : List Char, pySplitOn '/' eqn = [n, d] →
      parseFloat? (n.takeWhile isDigitC) = none →
      knet_calib eqn = .error .valueError) ∧
    (∀ (eqn n d : List Char) (v1 : Rat), pySplitOn '/' eqn = [n, d] →
      parseFloat? (n.takeWhile isDigitC) = some v1 → parseFloat? d = none →
      knet_calib eqn = .error .valueError) ∧
    (∀ (hls : List (List Char)) (c : Bool) (h : KnetHdr),
      read_knet_hdr hls c = .ok h →
      ∃ l t, hls[13]? = some l ∧ (splitWs l)[2]? = some t ∧
        knet_calib t = .ok h.calib) ∧
    knet_calib "2000/8388608".data = .ok (1/100 * 2000/8388608) := by
  refine ⟨fun eqn n d v1 v2 hsplit h1 h2 hnz => ?_,
    fun eqn hlen => ?_, fun eqn n d hsplit h1 => ?_,
    fun eqn n d v1 hsplit h1 h2 => ?_, fun hls c h hok => ?_, ?_⟩
  · unfold knet_calib
    rw [hsplit, show unpack2 [n, d] = Except.ok (n, d) from rfl, ok_bind]
    rw [show pyFloat ((n, d).1.takeWhile isDigitC) = .ok v1 from
      pyFloat_ok.mpr h1, ok_bind]
    rw [show pyFloat (n, d).2 = .ok v2 from pyFloat_ok.mpr h2, ok_bind]
    rw [if_neg hnz, pure_ok, ratMul_eq, ratDiv_eq]
    norm_num [Rat.mkRat_eq_div]
  · unfold knet_calib
    rw [unpack2_fail hlen, err_bind]
  · unfold knet_calib
    rw [hsplit, show unpack2 [n, d] = Except.ok (n, d) from rfl, ok_bind]
    rw [show pyFloat ((n, d).1.takeWhile isDigitC) = .error .valueError from
      pyFloat_none h1, err_bind]
  · unfold knet_calib
    rw [hsplit, show unpack2 [n, d] = Except.ok (n, d) from rfl, ok_bind]
    rw [show pyFloat ((n, d).1.takeWhile isDigitC) = .ok v1 from
      pyFloat_ok.mpr h1, ok_bind]
    rw [show pyFloat (n, d).2 = .error .valueError from pyFloat_none h2,
      err_bind]
  · obtain ⟨hlen, L0, L1, L2, L3, L4, L5, L6, L7, L8, L9, L10, L11, L12,
      L13, L14, L15, L16, g0, s0, g1, s1, g2, s2, g3, s3, g4, s4, g5, s5,
      g6, s6, g7, s7, g8, s8, g9, s9, g10, s10, g11, s11, g12, s12, g13,
      s13, g14, s14, g15, s15, g16, s16⟩ := read_knet_hdr_ok_elim hok
    obtain ⟨t, ht, hk⟩ := exCalib_ok_elim (hdrStep_ok_elim s13).2
    exact ⟨L13, t, g13, ht, hk⟩
  · have h1 : knet_calib "2000/8388608".data = .ok (mkRat 5 2097152) := by
      decide
    rw [h1]
    congr 1
    rw [Rat.mkRat_eq_div]
    norm_num

/-- C1 counterexample: a one-line stream with no `"Memo"`-prefixed line
decodes to a record (header absent, zero samples) instead of failing, so
decoding does return a result on such streams. -/
theorem C1_counterexample :
    internal_read_knet_ascii ["Origin Time 2011/03/11 14:46:00".data] false =
      .ok ⟨none, 0, "BO".data, []⟩ ∧
    "Memo".data.isPrefixOf "Origin Time 2011/03/11 14:46:00".data = false := by
  constructor <;> decide

/-- C1 (amended): when no line of the stream starts with `"Memo"`, the
header parser is never invoked and decoding silently returns a record with
no header metadata and zero samples — it does not fail. -/
theorem C1_no_memo_returns_record (lines : List (List Char)) (c : Bool)
    (hh : ∀ l ∈ lines, "Memo".data.isPrefixOf l = false) :
    internal_read_knet_ascii lines c = .ok ⟨none, 0, "BO".data, []⟩ := by
  unfold internal_read_knet_ascii
  rw [splitAtMemo_none hh]
  rfl

/-- C1 witness: the amended statement applied to a concrete stream. -/
theorem C1_witness :
    internal_read_knet_ascii ["Lat. 38.1".data, "3.5 4.5".data] true =
      .ok ⟨none, 0, "BO".data, []⟩ :=
  C1_no_memo_returns_record _ _ (by decide)

/-- C5 counterexample: the empty header-line list has length 0 ≠ 17, yet
`_read_knet_hdr` fails with the index error of `hdrlines[0]`, not with the
header-line-count-mismatch error the claim promises for every list whose
length differs from 17. -/
theorem C5_counterexample :
    read_knet_hdr [] false = .error .indexError ∧
    PyErr.indexError ≠ PyErr.headerCountMismatch 17 0 := by
  constructor <;> decide

/-- C5 (amended): the final check guarantees no header record is ever
returned for a list whose length differs from 17; a surplus list whose
first seventeen lines parse successfully fails with the
header-line-count-mismatch error reporting 17 against the actual count
(shorter lists fail earlier, with an index or label or field error). -/
theorem C5_count_check :
    (∀ (hls : List (List Char)) (c : Bool) (h : KnetHdr),
      hls.length ≠ 17 → read_knet_hdr hls c ≠ .ok h) ∧
    (∀ (hls : List (List Char)) (c : Bool) (h : KnetHdr),
      read_knet_hdr (hls.take 17) c = .ok h → hls.length ≠ 17 →
      read_knet_hdr hls c = .error (.headerCountMismatch 17 hls.length)) := by
  constructor
  · intro hls c h hne hok
    exact hne (read_knet_hdr_ok_elim hok).1
  · intro hls c h hok hne
    obtain ⟨hlen, L0, L1, L2, L3, L4, L5, L6, L7, L8, L9, L10, L11, L12,
      L13, L14, L15, L16, g0, s0, g1, s1, g2, s2, g3, s3, g4, s4, g5, s5,
      g6, s6, g7, s7, g8, s8, g9, s9, g10, s10, g11, s11, g12, s12, g13,
      s13, g14, s14, g15, s15, g16, s16⟩ := read_knet_hdr_ok_elim hok
    have e0 : hls[0]? = some L0 := getElem?_take_some g0
    have e1 : hls[1]? = some L1 := getElem?_take_some g1
    have e2 : hls[2]? = some L2 := getElem?_take_some g2
    have e3 : hls[3]? = some L3 := getElem?_take_some g3
    have e4 : hls[4]? = some L4 := getElem?_take_some g4
    have e5 : hls[5]? = some L5 := getElem?_take_some g5
    have e6 : hls[6]? = some L6 := getElem?_take_some g6
    have e7 : hls[7]? = some L7 := getElem?_take_some g7
    have e8 : hls[8]? = some L8 := getElem?_take_some g8
    have e9 : hls[9]? = some L9 := getElem?_take_some g9
    have e10 : hls[10]? = some L10 := getElem?_take_some g10
    have e11 : hls[11]? = some L11 := getElem?_take_some g11
    have e12 : hls[12]? = some L12 := getElem?_take_some g12
    have e13 : hls[13]? = some L13 := getElem?_take_some g13
    have e14 : hls[14]? = some L14 := getElem?_take_some g14
    have e15 : hls[15]? = some L15 := getElem?_take_some g15
    have e16 : hls[16]? = some L16 := getElem?_take_some g16
    unfold read_knet_hdr
    simp only [pyGet, e0, e1, e2, e3, e4, e5, e6, e7, e8, e9, e10, e11, e12,
      e13, e14, e15, e16, s0, s1, s2, s3, s4, s5, s6, s7, s8, s9, s10, s11,
      s12, s13, s14, s15, s16, ok_bind]
    rw [if_pos hne]

/-- C2: a stream made of seventeen header lines accepted by the header
parser followed by data lines all of whose whitespace tokens parse as
floats decodes to a record whose header is the parsed header, whose
sample count is the total token count, and whose samples are exactly the
tokens' values in line order and token order. -/
theorem C2_full_decode
    (l0 l1 l2 l3 l4 l5 l6 l7 l8 l9 l10 l11 l12 l13 l14 l15 l16 : List Char)
    (c : Bool) (h : KnetHdr) (datalines : List (List Char)) (vals : List Rat)
    (hhdr : read_knet_hdr [l0, l1, l2, l3, l4, l5, l6, l7, l8, l9, l10, l11,
      l12, l13, l14, l15, l16] c = .ok h)
    (hdata : parseData datalines = .ok vals) :
    internal_read_knet_ascii ([l0, l1, l2, l3, l4, l5, l6, l7, l8, l9, l10,
      l11, l12, l13, l14, l15, l16] ++ datalines) c =
      .ok ⟨some h, vals.length, "BO".data, vals⟩ ∧
    vals = datalines.flatMap
      (fun l => (splitWs (pyStrip l)).filterMap parseFloat?) ∧
    vals.length =
      (datalines.map (fun l => (splitWs (pyStrip l)).length)).sum := by
  obtain ⟨hlen, L0, L1, L2, L3, L4, L5, L6, L7, L8, L9, L10, L11, L12,
    L13, L14, L15, L16, g0, s0, g1, s1, g2, s2, g3, s3, g4, s4, g5, s5,
    g6, s6, g7, s7, g8, s8, g9, s9, g10, s10, g11, s11, g12, s12, g13,
    s13, g14, s14, g15, s15, g16, s16⟩ := read_knet_hdr_ok_elim hhdr
  have q0 : l0 = L0 := Option.some.inj g0
  have q1 : l1 = L1 := Option.some.inj g1
  have q2 : l2 = L2 := Option.some.inj g2
  have q3 : l3 = L3 := Option.some.inj g3
  have q4 : l4 = L4 := Option.some.inj g4
  have q5 : l5 = L5 := Option.some.inj g5
  have q6 : l6 = L6 := Option.some.inj g6
  have q7 : l7 = L7 := Option.some.inj g7
  have q8 : l8 = L8 := Option.some.inj g8
  have q9 : l9 = L9 := Option.some.inj g9
  have q10 : l10 = L10 := Option.some.inj g10
  have q11 : l11 = L11 := Option.some.inj g11
  have q12 : l12 = L12 := Option.some.inj g12
  have q13 : l13 = L13 := Option.some.inj g13
  have q14 : l14 = L14 := Option.some.inj g14
  have q15 : l15 = L15 := Option.some.inj g15
  have q16 : l16 = L16 := Option.some.inj g16
  subst q0 q1 q2 q3 q4 q5 q6 q7 q8 q9 q10 q11 q12 q13 q14 q15 q16
  have m0 : "Memo".data.isPrefixOf l0 = false :=
    bool_false_of_not (label_no_memo (by omega) (hdrStep_ok_elim s0).1)
  have m1 : "Memo".data.isPrefixOf l1 = false :=
    bool_false_of_not (label_no_memo (by omega) (hdrStep_ok_elim s1).1)
  have m2 : "Memo".data.isPrefixOf l2 = false :=
    bool_false_of_not (label_no_memo (by omega) (hdrStep_ok_elim s2).1)
  have m3 : "Memo".data.isPrefixOf l3 = false :=
    bool_false_of_not (label_no_memo (by omega) (hdrStep_ok_elim s3).1)
  have m4 : "Memo".data.isPrefixOf l4 = false :=
    bool_false_of_not (label_no_memo (by omega) (hdrStep_ok_elim s4).1)
  have m5 : "Memo".data.isPrefixOf l5 = false :=
    bool_false_of_not (label_no_memo (by omega) (hdrStep_ok_elim s5).1)
  have m6 : "Memo".data.isPrefixOf l6 = false :=
    bool_false_of_not (label_no_memo (by omega) (hdrStep_ok_elim s6).1)
  have m7 : "Memo".data.isPrefixOf l7 = false :=
    bool_false_of_not (label_no_memo (by omega) (hdrStep_ok_elim s7).1)
  have m8 : "Memo".data.isPrefixOf l8 = false :=
    bool_false_of_not (label_no_memo (by omega) (hdrStep_ok_elim s8).1)
  have m9 : "Memo".data.isPrefixOf l9 = false :=
    bool_false_of_not (label_no_memo (by omega) (hdrStep_ok_elim s9).1)
  have m10 : "Memo".data.isPrefixOf l10 = false :=
    bool_false_of_not (label_no_memo (by omega) (hdrStep_ok_elim s10).1)
  have m11 : "Memo".data.isPrefixOf l11 = false :=
    bool_false_of_not (label_no_memo (by omega) (hdrStep_ok_elim s11).1)
  have m12 : "Memo".data.isPrefixOf l12 = false :=
    bool_false_of_not (label_no_memo (by omega) (hdrStep_ok_elim s12).1)
  have m13 : "Memo".data.isPrefixOf l13 = false :=
    bool_false_of_not (label_no_memo (by omega) (hdrStep_ok_elim s13).1)
  have m14 : "Memo".data.isPrefixOf l14 = false :=
    bool_false_of_not (label_no_memo (by omega) (hdrStep_ok_elim s14).1)
  have m15 : "Memo".data.isPrefixOf l15 = false :=
    bool_false_of_not (label_no_memo (by omega) (hdrStep_ok_elim s15).1)
  have m16 : "Memo".data.isPrefixOf l16 = true :=
    memo_of_line16 (hdrStep_ok_elim s16).1
  have hsp : splitAtMemo ([l0, l1, l2, l3, l4, l5, l6, l7, l8, l9, l10, l11,
      l12, l13, l14, l15, l16] ++ datalines) =
      ([l0, l1, l2, l3, l4, l5, l6, l7, l8, l9, l10, l11, l12, l13, l14,
        l15, l16], true, datalines) := by
    have hf : ∀ l ∈ [l0, l1, l2, l3, l4, l5, l6, l7, l8, l9, l10, l11, l12,
        l13, l14, l15], "Memo".data.isPrefixOf l = false := by
      intro x hx
      rcases (by simpa using hx : x = l0 ∨ x = l1 ∨ x = l2 ∨ x = l3 ∨
        x = l4 ∨ x = l5 ∨ x = l6 ∨ x = l7 ∨ x = l8 ∨ x = l9 ∨ x = l10 ∨
        x = l11 ∨ x = l12 ∨ x = l13 ∨ x = l14 ∨ x = l15) with
        rfl | rfl | rfl | rfl | rfl | rfl | rfl | rfl | rfl | rfl | rfl |
        rfl | rfl | rfl | rfl | rfl
      exacts [m0, m1, m2, m3, m4, m5, m6, m7, m8, m9, m10, m11, m12, m13,
        m14, m15]
    have := splitAtMemo_found [l0, l1, l2, l3, l4, l5, l6, l7, l8,
      l9, l10, l11, l12, l13, l14, l15] l16 datalines hf m16
    simpa using this
  refine ⟨?_, (parseData_ok hdata).1, (parseData_ok hdata).2⟩
  unfold internal_read_knet_ascii
  rw [hsp]
  dsimp only
  rw [hhdr, ok_bind, hdata, ok_bind, pure_ok]

/-- C4 counterexample: with line 1 carrying an unparseable latitude value
and line 2 carrying a wrong label, `_read_knet_hdr` fails with the numeric
ValueError raised at line 1, not with a header-mismatch error, although
headerlines[2] does not start with its expected label `"Long."`. -/
theorem C4_counterexample :
    read_knet_hdr ["Origin Time       2011/03/11 14:46:00".data,
      "Lat. X".data, "WRONG".data, "Depth. (km)       24".data,
      "Mag.              9.0".data, "Station Code      MYG004".data,
      "Station Lat.      38.7292".data, "Station Long.     141.0217".data,
      "Station Height(m) 21".data,
      "Record Time       2011/03/11 14:46:45".data,
      "Sampling Freq(Hz) 100Hz".data, "Duration Time(s)  300".data,
      "Dir.              N-S".data,
      "Scale Factor      2000(gal)/8388608".data,
      "Max. Acc. (gal)   2933.078".data,
      "Last Correction   2011/03/11 14:46:45".data,
      "Memo.".data] false = .error .valueError ∧
    "Long.".data.isPrefixOf "WRONG".data = false := by
  constructor <;> decide

/-- C4 (amended): header lines are processed in strict fixed order; a line
that does not start with its position's expected label makes parsing fail
(it never returns a header record), and when every earlier position is
well-formed the failure is the header-mismatch error carrying the expected
label and the actual line; in particular swapping the `"Lat."` and
`"Long."` lines of an otherwise accepted header fails with the mismatch
error naming `"Lat."` and the swapped-in line. -/
theorem C4_label_order :
    (∀ (hls : List (List Char)) (c : Bool) (h : KnetHdr) (i : Nat)
      (L : List Char), i < 17 → hls[i]? = some L →
      (hdrnames.getD i []).isPrefixOf L = false →
      read_knet_hdr hls c ≠ .ok h) ∧
    (∀ (hls ms : List (List Char)) (c : Bool) (h : KnetHdr) (i : Nat)
      (L : List Char), read_knet_hdr hls c = .ok h → i < 17 →
      (∀ j, j < i → ms[j]? = hls[j]?) → ms[i]? = some L →
      (hdrnames.getD i []).isPrefixOf L = false →
      read_knet_hdr ms c =
        .error (.headerMismatch (hdrnames.getD i []) L)) ∧
    (∀ (l0 l1 l2 l3 l4 l5 l6 l7 l8 l9 l10 l11 l12 l13 l14 l15 l16
        : List Char) (c : Bool) (h : KnetHdr),
      read_knet_hdr [l0, l1, l2, l3, l4, l5, l6, l7, l8, l9, l10, l11, l12,
        l13, l14, l15, l16] c = .ok h →
      read_knet_hdr [l0, l2, l1, l3, l4, l5, l6, l7, l8, l9, l10, l11, l12,
        l13, l14, l15, l16] c =
        .error (.headerMismatch "Lat.".data l2)) := by
  refine ⟨?_, ?_, ?_⟩
  · intro hls c h i L hi hgl hbad hok
    obtain ⟨hlen, L0, L1, L2, L3, L4, L5, L6, L7, L8, L9, L10, L11, L12,
      L13, L14, L15, L16, g0, s0, g1, s1, g2, s2, g3, s3, g4, s4, g5, s5,
      g6, s6, g7, s7, g8, s8, g9, s9, g10, s10, g11, s11, g12, s12, g13,
      s13, g14, s14, g15, s15, g16, s16⟩ := read_knet_hdr_ok_elim hok
    interval_cases i
    · rw [g0] at hgl
      injection hgl with he
      subst he
      exact absurd (hdrStep_ok_elim s0).1 (bool_ne_true_of_false hbad)
    · rw [g1] at hgl
      injection hgl with he
      subst he
      exact absurd (hdrStep_ok_elim s1).1 (bool_ne_true_of_false hbad)
    · rw [g2] at hgl
      injection hgl with he
      subst he
      exact absurd (hdrStep_ok_elim s2).1 (bool_ne_true_of_false hbad)
    · rw [g3] at hgl
      injection hgl with he
      subst he
      exact absurd (hdrStep_ok_elim s3).1 (bool_ne_true_of_false hbad)
    · rw [g4] at hgl
      injection hgl with he
      subst he
      exact absurd (hdrStep_ok_elim s4).1 (bool_ne_true_of_false hbad)
    · rw [g5] at hgl
      injection hgl with he
      subst he
      exact absurd (hdrStep_ok_elim s5).1 (bool_ne_true_of_false hbad)
    · rw [g6] at hgl
      injection hgl with he
      subst he
      exact absurd (hdrStep_ok_elim s6).1 (bool_ne_true_of_false hbad)
    · rw [g7] at hgl
      injection hgl with he
      subst he
      exact absurd (hdrStep_ok_elim s7).1 (bool_ne_true_of_false hbad)
    · rw [g8] at hgl
      injection hgl with he
      subst he
      exact absurd (hdrStep_ok_elim s8).1 (bool_ne_true_of_false hbad)
    · rw [g9] at hgl
      injection hgl with he
      subst he
      exact absurd (hdrStep_ok_elim s9).1 (bool_ne_true_of_false hbad)
    · rw [g10] at hgl
      injection hgl with he
      subst he
      exact absurd (hdrStep_ok_elim s10).1 (bool_ne_true_of_false hbad)
    · rw [g11] at hgl
      injection hgl with he
      subst he
      exact absurd (hdrStep_ok_elim s11).1 (bool_ne_true_of_false hbad)
    · rw [g12] at hgl
      injection hgl with he
      subst he
      exact absurd (hdrStep_ok_elim s12).1 (bool_ne_true_of_false hbad)
    · rw [g13] at hgl
      injection hgl with he
      subst he
      exact absurd (hdrStep_ok_elim s13).1 (bool_ne_true_of_false hbad)
    · rw [g14] at hgl
      injection hgl with he
      subst he
      exact absurd (hdrStep_ok_elim s14).1 (bool_ne_true_of_false hbad)
    · rw [g15] at hgl
      injection hgl with he
      subst he
      exact absurd (hdrStep_ok_elim s15).1 (bool_ne_true_of_false hbad)
    · rw [g16] at hgl
      injection hgl with he
      subst he
      exact absurd (hdrStep_ok_elim s16).1 (bool_ne_true_of_false hbad)
  · intro hls ms c h i L hok hi hagree hmsL hbad
    obtain ⟨hlen, L0, L1, L2, L3, L4, L5, L6, L7, L8, L9, L10, L11, L12,
      L13, L14, L15, L16, g0, s0, g1, s1, g2, s2, g3, s3, g4, s4, g5, s5,
      g6, s6, g7, s7, g8, s8, g9, s9, g10, s10, g11, s11, g12, s12, g13,
      s13, g14, s14, g15, s15, g16, s16⟩ := read_knet_hdr_ok_elim hok
    interval_cases i
    · have hm := hdrStep_fail 0 knet_time_jst hbad
      unfold read_knet_hdr
      simp only [pyGet, hmsL, hm, ok_bind, err_bind]
    · have hm := hdrStep_fail 1 (exFloatAt 1) hbad
      have e0 : ms[0]? = some L0 := by
        rw [hagree 0 (by omega)]
        exact g0
      unfold read_knet_hdr
      simp only [pyGet, e0, s0, hmsL, hm, ok_bind, err_bind]
    · have hm := hdrStep_fail 2 (exFloatAt 1) hbad
      have e0 : ms[0]? = some L0 := by
        rw [hagree 0 (by omega)]
        exact g0
      have e1 : ms[1]? = some L1 := by
        rw [hagree 1 (by omega)]
        exact g1
      unfold read_knet_hdr
      simp only [pyGet, e0, s0, e1, s1, hmsL, hm, ok_bind, err_bind]
    · have hm := hdrStep_fail 3 (exFloatAt 2) hbad
      have e0 : ms[0]? = some L0 := by
        rw [hagree 0 (by omega)]
        exact g0
      have e1 : ms[1]? = some L1 := by
        rw [hagree 1 (by omega)]
        exact g1
      have e2 : ms[2]? = some L2 := by
        rw [hagree 2 (by omega)]
        exact g2
      unfold read_knet_hdr
      simp only [pyGet, e0, s0, e1, s1, e2, s2, hmsL, hm, ok_bind, err_bind]
    · have hm := hdrStep_fail 4 (exFloatAt 1) hbad
      have e0 : ms[0]? = some L0 := by
        rw [hagree 0 (by omega)]
        exact g0
      have e1 : ms[1]? = some L1 := by
        rw [hagree 1 (by omega)]
        exact g1
      have e2 : ms[2]? = some L2 := by
        rw [hagree 2 (by omega)]
        exact g2
      have e3 : ms[3]? = some L3 := by
        rw [hagree 3 (by omega)]
        exact g3
      unfold read_knet_hdr
      simp only [pyGet, e0, s0, e1, s1, e2, s2, e3, s3, hmsL, hm, ok_bind, err_bind]
    · have hm := hdrStep_fail 5 (exStation c) hbad
      have e0 : ms[0]? = some L0 := by
        rw [hagree 0 (by omega)]
        exact g0
      have e1 : ms[1]? = some L1 := by
        rw [hagree 1 (by omega)]
        exact g1
      have e2 : ms[2]? = some L2 := by
        rw [hagree 2 (by omega)]
        exact g2
      have e3 : ms[3]? = some L3 := by
        rw [hagree 3 (by omega)]
        exact g3
      have e4 : ms[4]? = some L4 := by
        rw [hagree 4 (by omega)]
        exact g4
      unfold read_knet_hdr
      simp only [pyGet, e0, s0, e1, s1, e2, s2, e3, s3, e4, s4, hmsL, hm, ok_bind, err_bind]
    · have hm := hdrStep_fail 6 (exFloatAt 2) hbad
      have e0 : ms[0]? = some L0 := by
        rw [hagree 0 (by omega)]
        exact g0
      have e1 : ms[1]? = some L1 := by
        rw [hagree 1 (by omega)]
        exact g1
      have e2 : ms[2]? = some L2 := by
        rw [hagree 2 (by omega)]
        exact g2
      have e3 : ms[3]? = some L3 := by
        rw [hagree 3 (by omega)]
        exact g3
      have e4 : ms[4]? = some L4 := by
        rw [hagree 4 (by omega)]
        exact g4
      have e5 : ms[5]? = some L5 := by
        rw [hagree 5 (by omega)]
        exact g5
      unfold read_knet_hdr
      simp only [pyGet, e0, s0, e1, s1, e2, s2, e3, s3, e4, s4, e5, s5, hmsL, hm, ok_bind, err_bind]
    · have hm := hdrStep_fail 7 (exFloatAt 2) hbad
      have e0 : ms[0]? = some L0 := by
        rw [hagree 0 (by omega)]
        exact g0
      have e1 : ms[1]? = some L1 := by
        rw [hagree 1 (by omega)]
        exact g1
      have e2 : ms[2]? = some L2 := by
        rw [hagree 2 (by omega)]
        exact g2
      have e3 : ms[3]? = some L3 := by
        rw [hagree 3 (by omega)]
        exact g3
      have e4 : ms[4]? = some L4 := by
        rw [hagree 4 (by omega)]
        exact g4
      have e5 : ms[5]? = some L5 := by
        rw [hagree 5 (by omega)]
        exact g5
      have e6 : ms[6]? = some L6 := by
        rw [hagree 6 (by omega)]
        exact g6
      unfold read_knet_hdr
      simp only [pyGet, e0, s0, e1, s1, e2, s2, e3, s3, e4, s4, e5, s5, e6, s6, hmsL, hm, ok_bind, err_bind]
    · have hm := hdrStep_fail 8 (exFloatAt 2) hbad
      have e0 : ms[0]? = some L0 := by
        rw [hagree 0 (by omega)]
        exact g0
      have e1 : ms[1]? = some L1 := by
        rw [hagree 1 (by omega)]
        exact g1
      have e2 : ms[2]? = some L2 := by
        rw [hagree 2 (by omega)]
        exact g2
      have e3 : ms[3]? = some L3 := by
        rw [hagree 3 (by omega)]
        exact g3
      have e4 : ms[4]? = some L4 := by
        rw [hagree 4 (by omega)]
        exact g4
      have e5 : ms[5]? = some L5 := by
        rw [hagree 5 (by omega)]
        exact g5
      have e6 : ms[6]? = some L6 := by
        rw [hagree 6 (by omega)]
        exact g6
      have e7 : ms[7]? = some L7 := by
        rw [hagree 7 (by omega)]
        exact g7
      unfold read_knet_hdr
      simp only [pyGet, e0, s0, e1, s1, e2, s2, e3, s3, e4, s4, e5, s5, e6, s6, e7, s7, hmsL, hm, ok_bind, err_bind]
    · have hm := hdrStep_fail 9 knet_rectime hbad
      have e0 : ms[0]? = some L0 := by
        rw [hagree 0 (by omega)]
        exact g0
      have e1 : ms[1]? = some L1 := by
        rw [hagree 1 (by omega)]
        exact g1
      have e2 : ms[2]? = some L2 := by
        rw [hagree 2 (by omega)]
        exact g2
      have e3 : ms[3]? = some L3 := by
        rw [hagree 3 (by omega)]
        exact g3
      have e4 : ms[4]? = some L4 := by
        rw [hagree 4 (by omega)]
        exact g4
      have e5 : ms[5]? = some L5 := by
        rw [hagree 5 (by omega)]
        exact g5
      have e6 : ms[6]? = some L6 := by
        rw [hagree 6 (by omega)]
        exact g6
      have e7 : ms[7]? = some L7 := by
        rw [hagree 7 (by omega)]
        exact g7
      have e8 : ms[8]? = some L8 := by
        rw [hagree 8 (by omega)]
        exact g8
      unfold read_knet_hdr
      simp only [pyGet, e0, s0, e1, s1, e2, s2, e3, s3, e4, s4, e5, s5, e6, s6, e7, s7, e8, s8, hmsL, hm, ok_bind, err_bind]
    · have hm := hdrStep_fail 10 exFreq hbad
      have e0 : ms[0]? = some L0 := by
        rw [hagree 0 (by omega)]
        exact g0
      have e1 : ms[1]? = some L1 := by
        rw [hagree 1 (by omega)]
        exact g1
      have e2 : ms[2]? = some L2 := by
        rw [hagree 2 (by omega)]
        exact g2
      have e3 : ms[3]? = some L3 := by
        rw [hagree 3 (by omega)]
        exact g3
      have e4 : ms[4]? = some L4 := by
        rw [hagree 4 (by omega)]
        exact g4
      have e5 : ms[5]? = some L5 := by
        rw [hagree 5 (by omega)]
        exact g5
      have e6 : ms[6]? = some L6 := by
        rw [hagree 6 (by omega)]
        exact g6
      have e7 : ms[7]? = some L7 := by
        rw [hagree 7 (by omega)]
        exact g7
      have e8 : ms[8]? = some L8 := by
        rw [hagree 8 (by omega)]
        exact g8
      have e9 : ms[9]? = some L9 := by
        rw [hagree 9 (by omega)]
        exact g9
      unfold read_knet_hdr
      simp only [pyGet, e0, s0, e1, s1, e2, s2, e3, s3, e4, s4, e5, s5, e6, s6, e7, s7, e8, s8, e9, s9, hmsL, hm, ok_bind, err_bind]
    · have hm := hdrStep_fail 11 (exFloatAt 2) hbad
      have e0 : ms[0]? = some L0 := by
        rw [hagree 0 (by omega)]
        exact g0
      have e1 : ms[1]? = some L1 := by
        rw [hagree 1 (by omega)]
        exact g1
      have e2 : ms[2]? = some L2 := by
        rw [hagree 2 (by omega)]
        exact g2
      have e3 : ms[3]? = some L3 := by
        rw [hagree 3 (by omega)]
        exact g3
      have e4 : ms[4]? = some L4 := by
        rw [hagree 4 (by omega)]
        exact g4
      have e5 : ms[5]? = some L5 := by
        rw [hagree 5 (by omega)]
        exact g5
      have e6 : ms[6]? = some L6 := by
        rw [hagree 6 (by omega)]
        exact g6
      have e7 : ms[7]? = some L7 := by
        rw [hagree 7 (by omega)]
        exact g7
      have e8 : ms[8]? = some L8 := by
        rw [hagree 8 (by omega)]
        exact g8
      have e9 : ms[9]? = some L9 := by
        rw [hagree 9 (by omega)]
        exact g9
      have e10 : ms[10]? = some L10 := by
        rw [hagree 10 (by omega)]
        exact g10
      unfold read_knet_hdr
      simp only [pyGet, e0, s0, e1, s1, e2, s2, e3, s3, e4, s4, e5, s5, e6, s6, e7, s7, e8, s8, e9, s9, e10, s10, hmsL, hm, ok_bind, err_bind]
    · have hm := hdrStep_fail 12 exChannel hbad
      have e0 : ms[0]? = some L0 := by
        rw [hagree 0 (by omega)]
        exact g0
      have e1 : ms[1]? = some L1 := by
        rw [hagree 1 (by omega)]
        exact g1
      have e2 : ms[2]? = some L2 := by
        rw [hagree 2 (by omega)]
        exact g2
      have e3 : ms[3]? = some L3 := by
        rw [hagree 3 (by omega)]
        exact g3
      have e4 : ms[4]? = some L4 := by
        rw [hagree 4 (by omega)]
        exact g4
      have e5 : ms[5]? = some L5 := by
        rw [hagree 5 (by omega)]
        exact g5
      have e6 : ms[6]? = some L6 := by
        rw [hagree 6 (by omega)]
        exact g6
      have e7 : ms[7]? = some L7 := by
        rw [hagree 7 (by omega)]
        exact g7
      have e8 : ms[8]? = some L8 := by
        rw [hagree 8 (by omega)]
        exact g8
      have e9 : ms[9]? = some L9 := by
        rw [hagree 9 (by omega)]
        exact g9
      have e10 : ms[10]? = some L10 := by
        rw [hagree 10 (by omega)]
        exact g10
      have e11 : ms[11]? = some L11 := by
        rw [hagree 11 (by omega)]
        exact g11
      unfold read_knet_hdr
      simp only [pyGet, e0, s0, e1, s1, e2, s2, e3, s3, e4, s4, e5, s5, e6, s6, e7, s7, e8, s8, e9, s9, e10, s10, e11, s11, hmsL, hm, ok_bind, err_bind]
    · have hm := hdrStep_fail 13 exCalib hbad
      have e0 : ms[0]? = some L0 := by
        rw [hagree 0 (by omega)]
        exact g0
      have e1 : ms[1]? = some L1 := by
        rw [hagree 1 (by omega)]
        exact g1
      have e2 : ms[2]? = some L2 := by
        rw [hagree 2 (by omega)]
        exact g2
      have e3 : ms[3]? = some L3 := by
        rw [hagree 3 (by omega)]
        exact g3
      have e4 : ms[4]? = some L4 := by
        rw [hagree 4 (by omega)]
        exact g4
      have e5 : ms[5]? = some L5 := by
        rw [hagree 5 (by omega)]
        exact g5
      have e6 : ms[6]? = some L6 := by
        rw [hagree 6 (by omega)]
        exact g6
      have e7 : ms[7]? = some L7 := by
        rw [hagree 7 (by omega)]
        exact g7
      have e8 : ms[8]? = some L8 := by
        rw [hagree 8 (by omega)]
        exact g8
      have e9 : ms[9]? = some L9 := by
        rw [hagree 9 (by omega)]
        exact g9
      have e10 : ms[10]? = some L10 := by
        rw [hagree 10 (by omega)]
        exact g10
      have e11 : ms[11]? = some L11 := by
        rw [hagree 11 (by omega)]
        exact g11
      have e12 : ms[12]? = some L12 := by
        rw [hagree 12 (by omega)]
        exact g12
      unfold read_knet_hdr
      simp only [pyGet, e0, s0, e1, s1, e2, s2, e3, s3, e4, s4, e5, s5, e6, s6, e7, s7, e8, s8, e9, s9, e10, s10, e11, s11, e12, s12, hmsL, hm, ok_bind, err_bind]
    · have hm := hdrStep_fail 14 (exFloatAt 3) hbad
      have e0 : ms[0]? = some L0 := by
        rw [hagree 0 (by omega)]
        exact g0
      have e1 : ms[1]? = some L1 := by
        rw [hagree 1 (by omega)]
        exact g1
      have e2 : ms[2]? = some L2 := by
        rw [hagree 2 (by omega)]
        exact g2
      have e3 : ms[3]? = some L3 := by
        rw [hagree 3 (by omega)]
        exact g3
      have e4 : ms[4]? = some L4 := by
        rw [hagree 4 (by omega)]
        exact g4
      have e5 : ms[5]? = some L5 := by
        rw [hagree 5 (by omega)]
        exact g5
      have e6 : ms[6]? = some L6 := by
        rw [hagree 6 (by omega)]
        exact g6
      have e7 : ms[7]? = some L7 := by
        rw [hagree 7 (by omega)]
        exact g7
      have e8 : ms[8]? = some L8 := by
        rw [hagree 8 (by omega)]
        exact g8
      have e9 : ms[9]? = some L9 := by
        rw [hagree 9 (by omega)]
        exact g9
      have e10 : ms[10]? = some L10 := by
        rw [hagree 10 (by omega)]
        exact g10
      have e11 : ms[11]? = some L11 := by
        rw [hagree 11 (by omega)]
        exact g11
      have e12 : ms[12]? = some L12 := by
        rw [hagree 12 (by omega)]
        exact g12
      have e13 : ms[13]? = some L13 := by
        rw [hagree 13 (by omega)]
        exact g13
      unfold read_knet_hdr
      simp only [pyGet, e0, s0, e1, s1, e2, s2, e3, s3, e4, s4, e5, s5, e6, s6, e7, s7, e8, s8, e9, s9, e10, s10, e11, s11, e12, s12, e13, s13, hmsL, hm, ok_bind, err_bind]
    · have hm := hdrStep_fail 15 knet_time_jst hbad
      have e0 : ms[0]? = some L0 := by
        rw [hagree 0 (by omega)]
        exact g0
      have e1 : ms[1]? = some L1 := by
        rw [hagree 1 (by omega)]
        exact g1
      have e2 : ms[2]? = some L2 := by
        rw [hagree 2 (by omega)]
        exact g2
      have e3 : ms[3]? = some L3 := by
        rw [hagree 3 (by omega)]
        exact g3
      have e4 : ms[4]? = some L4 := by
        rw [hagree 4 (by omega)]
        exact g4
      have e5 : ms[5]? = some L5 := by
        rw [hagree 5 (by omega)]
        exact g5
      have e6 : ms[6]? = some L6 := by
        rw [hagree 6 (by omega)]
        exact g6
      have e7 : ms[7]? = some L7 := by
        rw [hagree 7 (by omega)]
        exact g7
      have e8 : ms[8]? = some L8 := by
        rw [hagree 8 (by omega)]
        exact g8
      have e9 : ms[9]? = some L9 := by
        rw [hagree 9 (by omega)]
        exact g9
      have e10 : ms[10]? = some L10 := by
        rw [hagree 10 (by omega)]
        exact g10
      have e11 : ms[11]? = some L11 := by
        rw [hagree 11 (by omega)]
        exact g11
      have e12 : ms[12]? = some L12 := by
        rw [hagree 12 (by omega)]
        exact g12
      have e13 : ms[13]? = some L13 := by
        rw [hagree 13 (by omega)]
        exact g13
      have e14 : ms[14]? = some L14 := by
        rw [hagree 14 (by omega)]
        exact g14
      unfold read_knet_hdr
      simp only [pyGet, e0, s0, e1, s1, e2, s2, e3, s3, e4, s4, e5, s5, e6, s6, e7, s7, e8, s8, e9, s9, e10, s10, e11, s11, e12, s12, e13, s13, e14, s14, hmsL, hm, ok_bind, err_bind]
    · have hm := hdrStep_fail 16 exMemo hbad
      have e0 : ms[0]? = some L0 := by
        rw [hagree 0 (by omega)]
        exact g0
      have e1 : ms[1]? = some L1 := by
        rw [hagree 1 (by omega)]
        exact g1
      have e2 : ms[2]? = some L2 := by
        rw [hagree 2 (by omega)]
        exact g2
      have e3 : ms[3]? = some L3 := by
        rw [hagree 3 (by omega)]
        exact g3
      have e4 : ms[4]? = some L4 := by
        rw [hagree 4 (by omega)]
        exact g4
      have e5 : ms[5]? = some L5 := by
        rw [hagree 5 (by omega)]
        exact g5
      have e6 : ms[6]? = some L6 := by
        rw [hagree 6 (by omega)]
        exact g6
      have e7 : ms[7]? = some L7 := by
        rw [hagree 7 (by omega)]
        exact g7
      have e8 : ms[8]? = some L8 := by
        rw [hagree 8 (by omega)]
        exact g8
      have e9 : ms[9]? = some L9 := by
        rw [hagree 9 (by omega)]
        exact g9
      have e10 : ms[10]? = some L10 := by
        rw [hagree 10 (by omega)]
        exact g10
      have e11 : ms[11]? = some L11 := by
        rw [hagree 11 (by omega)]
        exact g11
      have e12 : ms[12]? = some L12 := by
        rw [hagree 12 (by omega)]
        exact g12
      have e13 : ms[13]? = some L13 := by
        rw [hagree 13 (by omega)]
        exact g13
      have e14 : ms[14]? = some L14 := by
        rw [hagree 14 (by omega)]
        exact g14
      have e15 : ms[15]? = some L15 := by
        rw [hagree 15 (by omega)]
        exact g15
      unfold read_knet_hdr
      simp only [pyGet, e0, s0, e1, s1, e2, s2, e3, s3, e4, s4, e5, s5, e6, s6, e7, s7, e8, s8, e9, s9, e10, s10, e11, s11, e12, s12, e13, s13, e14, s14, e15, s15, hmsL, hm, ok_bind, err_bind]

  · intro l0 l1 l2 l3 l4 l5 l6 l7 l8 l9 l10 l11 l12 l13 l14 l15 l16 c h hok
    obtain ⟨hlen, L0, L1, L2, L3, L4, L5, L6, L7, L8, L9, L10, L11, L12,
      L13, L14, L15, L16, g0, s0, g1, s1, g2, s2, g3, s3, g4, s4, g5, s5,
      g6, s6, g7, s7, g8, s8, g9, s9, g10, s10, g11, s11, g12, s12, g13,
      s13, g14, s14, g15, s15, g16, s16⟩ := read_knet_hdr_ok_elim hok
    have q0 : l0 = L0 := Option.some.inj g0
    have q2 : l2 = L2 := Option.some.inj g2
    subst q0 q2
    have hlong := (hdrStep_ok_elim s2).1
    have hbad : (hdrnames.getD 1 []).isPrefixOf l2 = false :=
      bool_false_of_not
        (fun hlat => isPrefixOf_conflictF hlat hlong (by decide) (by decide))
    have hm := hdrStep_fail 1 (exFloatAt 1) hbad
    unfold read_knet_hdr
    simp only [pyGet, List.getElem?_cons_zero, List.getElem?_cons_succ, s0,
      hm, ok_bind, err_bind]
    rfl

/-- C3 witness: the sniffer accepts a stream beginning `"Origin Time"`. -/
theorem C3_witness :
    internal_is_knet_ascii (some "Origin Time       2011/03/11".data) =
      true :=
  (C3_sniffer_iff.1 _).mpr ⟨_, rfl, by decide⟩

/-- C2 witness: the full decode of a concrete well-formed stream. -/
theorem C2_witness :
    internal_read_knet_ascii
      (sampleLines ++ ["3.5 4.5".data, "5.5".data]) false =
      .ok ⟨some sampleHdr, 3, "BO".data,
        [mkRat 7 2, mkRat 9 2, mkRat 11 2]⟩ :=
  (C2_full_decode "Origin Time       2011/03/11 14:46:00".data
    "Lat.              38.103".data "Long.             142.86".data
    "Depth. (km)       24".data "Mag.              9.0".data
    "Station Code      MYG004".data "Station Lat.      38.7292".data
    "Station Long.     141.0217".data "Station Height(m) 21".data
    "Record Time       2011/03/11 14:46:45".data
    "Sampling Freq(Hz) 100Hz".data "Duration Time(s)  300".data
    "Dir.              N-S".data "Scale Factor      2000(gal)/8388608".data
    "Max. Acc. (gal)   2933.078".data
    "Last Correction   2011/03/11 14:46:45".data "Memo.".data false
    sampleHdr ["3.5 4.5".data, "5.5".data]
    [mkRat 7 2, mkRat 9 2, mkRat 11 2] (by decide) (by decide)).1

/-- C4 witness: swapping the `Lat.` and `Long.` lines of the concrete
valid header fails with the mismatch error naming `"Lat."`. -/
theorem C4_witness :
    read_knet_hdr ["Origin Time       2011/03/11 14:46:00".data,
      "Long.             142.86".data, "Lat.              38.103".data,
      "Depth. (km)       24".data, "Mag.              9.0".data,
      "Station Code      MYG004".data, "Station Lat.      38.7292".data,
      "Station Long.     141.0217".data, "Station Height(m) 21".data,
      "Record Time       2011/03/11 14:46:45".data,
      "Sampling Freq(Hz) 100Hz".data, "Duration Time(s)  300".data,
      "Dir.              N-S".data,
      "Scale Factor      2000(gal)/8388608".data,
      "Max. Acc. (gal)   2933.078".data,
      "Last Correction   2011/03/11 14:46:45".data, "Memo.".data] false =
      .error (.headerMismatch "Lat.".data "Long.             142.86".data) :=
  C4_label_order.2.2 "Origin Time       2011/03/11 14:46:00".data
    "Lat.              38.103".data "Long.             142.86".data
    "Depth. (km)       24".data "Mag.              9.0".data
    "Station Code      MYG004".data "Station Lat.      38.7292".data
    "Station Long.     141.0217".data "Station Height(m) 21".data
    "Record Time       2011/03/11 14:46:45".data
    "Sampling Freq(Hz) 100Hz".data "Duration Time(s)  300".data
    "Dir.              N-S".data "Scale Factor      2000(gal)/8388608".data
    "Max. Acc. (gal)   2933.078".data
    "Last Correction   2011/03/11 14:46:45".data "Memo.".data false
    sampleHdr (by decide)

/-- C5 witness: an eighteen-line list whose first seventeen lines are the
valid header fails with the count-mismatch error 17 versus 18. -/
theorem C5_witness :
    read_knet_hdr (sampleLines ++ ["EXTRA".data]) false =
      .error (.headerCountMismatch 17 18) :=
  C5_count_check.2 (sampleLines ++ ["EXTRA".data]) false sampleHdr
    (by decide) (by decide)

/-- C6 witness: the timestamp derivations applied to the concrete
record-time tokens of 2011-03-11 14:46:45 JST. -/
theorem C6_witness :
    knet_time_jst [[], [], "2011/03/11".data, "14:46:45".data] =
      .ok (civilToSecs 2011 3 11 14 46 45 - 9 * 3600) ∧
    knet_rectime [[], [], "2011/03/11".data, "14:46:45".data] =
      .ok (civilToSecs 2011 3 11 14 46 45 - 15 - 9 * 3600) :=
  C6_timestamps.1 [[], [], "2011/03/11".data, "14:46:45".data]
    "2011/03/11".data "14:46:45".data (civilToSecs 2011 3 11 14 46 45)
    (by decide) (by decide) (by decide)

/-- C7 witness: an eight-character token with conversion enabled succeeds
with a six-character station and a two-character location. -/
theorem C7_witness :
    knet_station "ABCDEFGH".data true = .ok ("ABCDEF".data, "GH".data) :=
  (C7_station_split.1 "ABCDEFGH".data true).1 (by decide)

/-- C8 witness: the hyphen-stripped direction token `"--3"` remaps to the
named channel `"UD1"`. -/
theorem C8_witness : knet_channel "--3".data = "UD1".data :=
  (C8_channel_remap.1 "--3".data).2.2.1 (by decide)

/-- C10 witness: a token with no leading digit fails, and `"100Hz"`
yields rate 100. -/
theorem C10_witness :
    knet_freq "Hz100".data = .error .valueError ∧
    knet_freq "100Hz".data = .ok 100 :=
  ⟨C10_sampling_rate.1 "Hz100".data
      (by intro ch rest hh; cases hh; decide),
   C10_sampling_rate.2.1 "100Hz".data (by decide)⟩

/-- C9 witness: the scale factor `"2000/8388608"` yields
`0.01 * 2000 / 8388608`. -/
theorem C9_witness :
    knet_calib "2000/8388608".data =
      .ok (1/100 * mkRat 2000 1 / mkRat 8388608 1) :=
  C9_calibration.1 "2000/8388608".data "2000".data "8388608".data
    (mkRat 2000 1) (mkRat 8388608 1) (by decide) (by decide) (by decide)
    (by decide)
